import Mathlib

/-!
# The VCMI client entry point (`client/CMT.cpp`)

A shallow embedding of `handleEvent`, `handleQuit`, `quitApplication`, `mainLoop` and the
start-up code of `main`.

* The build modelled is the desktop one: none of `VCMI_ANDROID`, `VCMI_IOS`, `VCMI_MOBILE`,
  `VCMI_MAC`, `VCMI_NO_THREADED_LOAD`, `DISABLE_VIDEO` is defined, and SDL defines
  `SDL_HINT_MOUSE_TOUCH_EVENTS`.
* Calls into other translation units are recorded, in program order, in `World.trace`.
* The handles this file creates, tests or frees (`CCS` and the handlers main stores in it,
  `graphics`, `VLC`, `console`, `logConfig`) are nullable in the model, and a call through one
  that is null ends the run as `Outcome.crashed`.  Objects owned by other modules (`CSH`, `GH`,
  `CMM`, the campaign state behind `user.data1`) are taken to be valid where the source
  dereferences them.
* `CSH->client` and `LOCPLINT` belong to other modules and may change between two events, so
  their values are an input (`Env`) of every call.
-/

namespace CMT

/-! ## Settings store -/

/-- Modelled from the spec: a node of the hierarchical key-value settings tree (class JsonNode
of lib, not in src), reduced to its scalar kinds.  A `float` written from an `int` keeps that
integer. -/
inductive JsonNode
  | null
  | bool (b : Bool)
  | integer (i : Int)
  | float (d : Int)
  | string (s : String)
  deriving DecidableEq, Repr

/-- Modelled from the spec: read access `node.Bool()`, which is `false` on a node of another
kind. -/
def JsonNode.asBool : JsonNode → Bool
  | .bool b => b
  | _ => false

/-- Modelled from the spec: the test `node.isNull()`. -/
def JsonNode.isNull : JsonNode → Bool
  | .null => true
  | _ => false

/-- Modelled from the spec: read access `node.String()`, empty on a node of another kind. -/
def JsonNode.asString : JsonNode → String
  | .string s => s
  | _ => ""

/-- Modelled from the spec: read access `node.Integer()`, zero on a node of another kind. -/
def JsonNode.asInteger : JsonNode → Int
  | .integer i => i
  | _ => 0

/-- A path into the settings tree, such as `["video", "fullscreen"]`. -/
abbrev Path := List String

/-- Modelled from the spec: the persisted configuration store, read and written by path; a path
that was never written holds `null`. -/
abbrev SettingsTree := Path → JsonNode

/-- Modelled from the spec: write-by-path; every other path keeps its node. -/
def SettingsTree.write (t : SettingsTree) (p : Path) (v : JsonNode) : SettingsTree :=
  fun q => if q = p then v else t q

/-! ## Events -/

/-- The enumeration `EUserEvent` after `static_cast<EUserEvent>(ev.user.code)`: the six
enumerators the switch in `handleEvent` names, and `other code` for every value that is none of
them. -/
inductive EUserEvent
  | FORCE_QUIT
  | RETURN_TO_MAIN_MENU
  | RESTART_GAME
  | CAMPAIGN_START_SCENARIO
  | RETURN_TO_MENU_LOAD
  | FULLSCREEN_TOGGLED
  | other (code : Int)
  deriving DecidableEq, Repr

/-- What `handleEvent` reads of the `CCampaignState` that `user.data1` points to (the class is
declared in lib/mapping/CCampaignHandler.h, not in src). -/
structure CCampaignState where
  /-- Value of `camp->scenarios[mapsConquered.back()].epilog.hasPrologEpilog`. -/
  epilogHasPrologEpilog : Bool
  /-- The vector `mapsRemaining`. -/
  mapsRemaining : List Nat
  deriving DecidableEq, Repr

/-- The fields of `SDL_Event` that `handleEvent` reads. -/
structure SDL_Event where
  /-- Field `ev.type`. -/
  type : Nat
  /-- Field `ev.key.keysym.sym`. -/
  sym : Int
  /-- Field `ev.key.keysym.mod`. -/
  keymod : Nat
  /-- Field `ev.user.code`, cast to the enumeration. -/
  code : EUserEvent
  /-- Object behind `ev.user.data1`. -/
  data1 : CCampaignState
  /-- Field `ev.window.event`. -/
  windowEvent : Nat
  /-- Field `ev.motion.x`. -/
  x : Int
  /-- Field `ev.motion.y`. -/
  y : Int
  deriving DecidableEq, Repr

/-- SDL2 constant `SDL_QUIT`. -/
def SDL_QUIT : Nat := 0x100
/-- SDL2 constant `SDL_WINDOWEVENT`. -/
def SDL_WINDOWEVENT : Nat := 0x200
/-- SDL2 constant `SDL_SYSWMEVENT`. -/
def SDL_SYSWMEVENT : Nat := 0x201
/-- SDL2 constant `SDL_KEYDOWN`. -/
def SDL_KEYDOWN : Nat := 0x300
/-- SDL2 constant `SDL_MOUSEMOTION`. -/
def SDL_MOUSEMOTION : Nat := 0x400
/-- SDL2 constant `SDL_USEREVENT`. -/
def SDL_USEREVENT : Nat := 0x8000
/-- SDL2 constant `SDLK_F4`, scancode 61 with the scancode bit. -/
def SDLK_F4 : Int := 1073741885
/-- SDL2 constant `KMOD_ALT`, left or right Alt. -/
def KMOD_ALT : Nat := 0x300
/-- SDL2 constant `SDL_WINDOWEVENT_RESTORED`. -/
def SDL_WINDOWEVENT_RESTORED : Nat := 9

/-! ## Effects and state -/

/-- The pointers that `vstd::clear_pointer` deletes and nulls. -/
inductive Handle
  | CCS
  | graphics
  | VLC
  | console
  deriving DecidableEq, Repr

/-- The windows pushed on the window stack by `handleEvent`. -/
inductive Window
  | CMM
  | CMM_menu
  | CPrologEpilogVideo (campaign : CCampaignState)
  deriving DecidableEq, Repr

/-- The calls that only `main` makes, before the final loop. -/
inductive StartupCall
  /-- Call `boost::filesystem::current_path(...)`. -/
  | currentPath
  /-- Output on `std::cerr`. -/
  | cerr (text : String)
  /-- Call `prog_help(opts)`. -/
  | progHelp
  /-- Call `prog_version()`. -/
  | progVersion
  /-- Statement `console = new CConsoleHandler()` with the assignment of the callback. -/
  | newConsole
  /-- Call `console->start()`. -/
  | consoleStart
  /-- Statement `logConfig = new CBasicLogConfigurator(logPath, console)`. -/
  | newLogConfig
  /-- Call `logConfig->configureDefault()`. -/
  | logConfigureDefault
  /-- Call `logConfig->configure()`. -/
  | logConfigure
  /-- Call `preinitDLL(console)`. -/
  | preinitDLL
  /-- Call `srand(time(nullptr))`. -/
  | srand
  /-- Call `GH.init()`. -/
  | GHInit
  /-- Statement `CCS = new CClientState()`. -/
  | newCClientState
  /-- Statement `CGI = new CGameInfo()`. -/
  | newCGameInfo
  /-- Statement `CSH = new CServerHandler()`. -/
  | newCServerHandler
  /-- Statement `CCS->videoh = new CVideoPlayer()`, or `new CEmptyVideoPlayer()` when `empty`. -/
  | newVideoPlayer (empty : Bool)
  /-- Statements `CCS->soundh = new CSoundHandler()`, `init()` and `setVolume(...)`. -/
  | soundInit
  /-- Statements `CCS->musich = new CMusicHandler()`, `init()` and `setVolume(...)`. -/
  | musicInit
  /-- Call `SDL_SetHint(name, value)`. -/
  | setHint (name value : String)
  /-- Statement `boost::thread loading(init)`. -/
  | loadingStart
  /-- Call `CCS->videoh->openAndPlayVideo(name, 0, 1, true, true)`. -/
  | openAndPlayVideo (name : String)
  /-- Call `GH.screenHandler().clearScreen()`. -/
  | clearScreen
  /-- Call `loading.join()`. -/
  | loadingJoin
  /-- Statement `graphics = new Graphics()`. -/
  | newGraphics
  /-- Statement `CCS->curh = new CursorHandler()`. -/
  | newCursorHandler
  /-- Call `CMessage::init()`. -/
  | messageInit
  /-- Call `CCS->curh->show()`. -/
  | cursorShow
  /-- Statement `boost::thread(&CServerHandler::debugStartTest, CSH, file, save)`. -/
  | debugStartTest (file : String) (save : Bool)
  /-- Statements `mmenu = CMainMenu::create()` and `GH.curInt = mmenu.get()`. -/
  | mainMenuCreate
  /-- Call `mmenu->openLobby(sscreen, host, &names, ELoadMode::MULTI)`. -/
  | openLobby (loadGame host : Bool) (names : List String)
  /-- Call `CSH->restoreLastSession()`. -/
  | restoreLastSession
  deriving DecidableEq, Repr

/-- A call into another module, an output or a lock operation, as it appears in the source. -/
inductive Effect
  /-- Call `CSH->endGameplay()`. -/
  | endGameplay
  /-- Call `GH.windows().listInt.clear()`. -/
  | listIntClear
  /-- Call `GH.windows().objsToBlit.clear()`. -/
  | objsToBlitClear
  /-- Call `CMM.reset()`. -/
  | CMMReset
  /-- Call `CCS->musich->release()`. -/
  | musichRelease
  /-- Call `CCS->soundh->release()`. -/
  | soundhRelease
  /-- Call `vstd::clear_pointer(h)`. -/
  | clearPointer (h : Handle)
  /-- Call `CMessage::dispose()`. -/
  | messageDispose
  /-- Call `boost::this_thread::sleep(milliseconds(ms))`. -/
  | sleep (ms : Nat)
  /-- Call `GH.screenHandler().close()`. -/
  | screenHandlerClose
  /-- Call `logConfig->deconfigure()`. -/
  | logConfigDeconfigure
  /-- Statement `delete logConfig`. -/
  | logConfigDelete
  /-- Output on `std::cout` or through `printf`. -/
  | cout (text : String)
  /-- Call `CCS->curh->set(Cursor::Map::POINTER)`. -/
  | cursorSetPointer
  /-- Call `LOCPLINT->showYesNoDialog(allTexts[text], onYes, nullptr)`. -/
  | showYesNoDialog (text : Nat)
  /-- Lock of `eventsM`. -/
  | eventsMLock
  /-- Unlock of `eventsM`. -/
  | eventsMUnlock
  /-- Call `CGuiHandler::pushUserEvent(code)`. -/
  | pushUserEvent (code : EUserEvent)
  /-- Call `CMM->menu->switchToTab(tab)`. -/
  | switchToTab (tab : String)
  /-- Call `CSH->sendRestartGame()`. -/
  | sendRestartGame
  /-- Call `CSH->campaignServerRestartLock.set(v)`. -/
  | restartLockSet (v : Bool)
  /-- Call `CSH->campaignServerRestartLock.waitUntil(v)`, recorded when it has returned. -/
  | restartLockWaitUntil (v : Bool)
  /-- Call `GH.windows().pushInt(w)` or `pushIntT`. -/
  | pushInt (w : Window)
  /-- Call `CMM->openCampaignLobby(campaign)`. -/
  | openCampaignLobby (campaign : CCampaignState)
  /-- Lock of the recursive mutex `CPlayerInterface::pim`. -/
  | pimLock
  /-- Unlock of `CPlayerInterface::pim`. -/
  | pimUnlock
  /-- Call `GH.onScreenResize()`. -/
  | onScreenResize
  /-- Call `logGlobal->error(msg)`. -/
  | logError (msg : String)
  /-- Call `logGlobal->info(msg)` or `logGlobal->debug(msg)`. -/
  | logInfo (msg : String)
  /-- Call `NotificationHandler::handleSdlEvent(ev)`. -/
  | handleSdlEvent
  /-- Call `CCS->curh->cursorMove(x, y)`. -/
  | cursorMove (x y : Int)
  /-- Call `CSH->applyPacksOnLobbyScreen()`. -/
  | applyPacksOnLobbyScreen
  /-- Call `GH.renderFrame()`. -/
  | renderFrame
  /-- Statement `inGuiThread.reset(new bool(true))`. -/
  | inGuiThreadReset
  /-- A call that only `main` makes before the final loop. -/
  | startup (call : StartupCall)
  deriving DecidableEq, Repr

/-- The client-state aggregate `CCS` points to: which of the handlers that `main` stores in it
are non-null. -/
structure CClientState where
  /-- Pointer `musich` is non-null. -/
  musich : Bool
  /-- Pointer `soundh` is non-null. -/
  soundh : Bool
  /-- Pointer `curh` is non-null. -/
  curh : Bool
  /-- Pointer `videoh` is non-null. -/
  videoh : Bool
  deriving DecidableEq, Repr

/-- What a call reads from objects owned by other modules. -/
structure Env where
  /-- Pointer `CSH->client` is non-null: a live game session exists. -/
  client : Bool
  /-- Pointer `LOCPLINT` is non-null: a player interface exists. -/
  LOCPLINT : Bool
  deriving DecidableEq, Repr

/-- The global state that the code of CMT.cpp reads and writes, and the trace of its calls. -/
structure World where
  /-- The global `settings`. -/
  settings : SettingsTree
  /-- Modelled from the spec: the paths of the registered settings listeners; each of the two
  callbacks in `mainLoop` pushes `FULLSCREEN_TOGGLED`. -/
  listeners : List Path
  /-- The global `CCS`, `none` when null. -/
  CCS : Option CClientState
  /-- Pointer `graphics` is non-null. -/
  graphics : Bool
  /-- Pointer `VLC` is non-null. -/
  VLC : Bool
  /-- Pointer `console` is non-null. -/
  console : Bool
  /-- Pointer `logConfig` is non-null. -/
  logConfig : Bool
  /-- Shared pointer `CMM` is non-empty. -/
  CMM : Bool
  /-- Field `GH.defActionsDef`. -/
  defActionsDef : Nat
  /-- The queue `SDLEventsQueue`, front first. -/
  SDLEventsQueue : List SDL_Event
  /-- Calls made so far, oldest first. -/
  trace : List Effect

/-- How a run of a function ends. -/
inductive Outcome
  /-- Control is back at the caller. -/
  | returned (s : World)
  /-- The process ended with `exit(code)`, or `main` returned `code`. -/
  | exited (code : Nat) (s : World)
  /-- A null handle was dereferenced, or an exception left `main`. -/
  | crashed (s : World)

/-- The state in which the run ended. -/
def Outcome.world : Outcome → World
  | .returned s => s
  | .exited _ s => s
  | .crashed s => s

/-- Sequencing: the next step runs only when the previous one returned. -/
def Outcome.bind (o : Outcome) (f : World → Outcome) : Outcome :=
  match o with
  | .returned s => f s
  | .exited c s => .exited c s
  | .crashed s => .crashed s

/-- Record one call at the end of the trace. -/
def emit (e : Effect) (s : World) : World :=
  { s with trace := s.trace ++ [e] }

/-- The reading `settings["session"]["headless"].Bool()`. -/
def headless (s : World) : Bool :=
  (s.settings ["session", "headless"]).asBool

/-- Modelled from the spec: a listener registered on `l` is notified of a write at `p` when one
of the two paths is an initial segment of the other. -/
def listens (l p : Path) : Bool :=
  l.isPrefixOf p || p.isPrefixOf l

/-- A write through a settings accessor that stays alive: the node changes and no listener
is notified yet. -/
def setNode (p : Path) (v : JsonNode) (s : World) : World :=
  { s with settings := s.settings.write p v }

/-- Modelled from the spec: the change-notification subscription (class SettingsListener, not
in src).  The callback of every listener on `p` runs; the callbacks registered in `mainLoop`
push `FULLSCREEN_TOGGLED`. -/
def notify (p : Path) (s : World) : World :=
  { s with
    trace := s.trace ++
      ((s.listeners.filter (fun l => listens l p)).map
        (fun _ => Effect.pushUserEvent EUserEvent.FULLSCREEN_TOGGLED)) }

/-- Modelled from the spec: a write through a settings accessor (class Settings, not in src)
that is destroyed right after: when the node at `p` changes, the listeners on `p` are
notified. -/
def writeSetting (p : Path) (v : JsonNode) (s : World) : World :=
  if s.settings p = v then s else notify p (setNode p v s)

/-! ## quitApplication -/

/-- Lines 634-640 of `quitApplication`: the audio handlers are released through `CCS`, then
`CCS` is freed; nothing happens when `CCS` is null. -/
def releaseClientState (s : World) : Outcome :=
  match s.CCS with
  | none => .returned s
  | some c =>
    if c.musich then
      let s := emit .musichRelease s
      if c.soundh then
        let s := emit .soundhRelease s
        .returned { emit (.clearPointer .CCS) s with CCS := none }
      else .crashed s
    else .crashed s

/-- Lines 646-663 of `quitApplication`: from `clear_pointer(VLC)` to `exit(0)`. -/
def quitTail (s : World) : Outcome :=
  let s := { emit (.clearPointer .VLC) s with VLC := false }
  let s := { emit (.clearPointer .console) s with console := false }
  let s := emit (.sleep 750) s
  let s := if !headless s then emit .screenHandlerClose s else s
  let s :=
    if s.logConfig then
      { emit .logConfigDelete (emit .logConfigDeconfigure s) with logConfig := false }
    else s
  let s := emit (.cout "Ending...\n") s
  .exited 0 s

/-- The function `quitApplication` (lines 618-664). -/
def quitApplication (env : Env) (s : World) : Outcome :=
  let s := if !headless s then (if env.client then emit .endGameplay s else s) else s
  let s := emit .listIntClear s
  let s := emit .objsToBlitClear s
  let s := { emit .CMMReset s with CMM := false }
  if !headless s then
    (releaseClientState s).bind fun s =>
      let s := emit .messageDispose s
      let s := { emit (.clearPointer .graphics) s with graphics := false }
      quitTail s
  else quitTail s

/-! ## handleQuit -/

/-- The accept callback that `handleQuit` hands to the yes/no dialog (lines 671-679). -/
def quitDialogAccepted (env : Env) (s : World) : Outcome :=
  quitApplication env (emit .eventsMUnlock s)

/-- The function `handleQuit` (lines 666-685). -/
def handleQuit (env : Env) (ask : Bool) (s : World) : Outcome :=
  if env.client && env.LOCPLINT && ask then
    match s.CCS with
    | none => .crashed s
    | some c =>
      if c.curh then
        .returned (emit (.showYesNoDialog 69) (emit .cursorSetPointer s))
      else .crashed s
  else quitApplication env s

/-! ## handleEvent -/

/-- The test of line 474: `SDL_QUIT`, or a key-down of F4 with an Alt modifier. -/
def isQuitKey (ev : SDL_Event) : Bool :=
  ev.type == SDL_QUIT ||
    (ev.type == SDL_KEYDOWN && ev.sym == SDLK_F4 && (ev.keymod &&& KMOD_ALT) != 0)

/-- The continuation `finisher` built for `CAMPAIGN_START_SCENARIO` (lines 523-531). -/
def finisher (ourCampaign : CCampaignState) (s : World) : World :=
  if ourCampaign.mapsRemaining.length != 0 then
    let s := emit (.pushInt .CMM) s
    let s := emit (.pushInt .CMM_menu) s
    emit (.openCampaignLobby ourCampaign) s
  else s

/-- The switch over `ev.user.code` in `handleEvent` (lines 497-559). -/
def handleUserEvent (env : Env) (ev : SDL_Event) (s : World) : Outcome :=
  match ev.code with
  | .FORCE_QUIT => handleQuit env false s
  | .RETURN_TO_MAIN_MENU =>
    let s := emit .endGameplay s
    let s := { s with defActionsDef := 63 }
    .returned (emit (.switchToTab "main") s)
  | .RESTART_GAME => .returned (emit .sendRestartGame s)
  | EUserEvent.CAMPAIGN_START_SCENARIO =>
    let s := emit (.restartLockSet true) s
    let s := emit .endGameplay s
    if ev.data1.epilogHasPrologEpilog then
      .returned (emit (.pushInt (.CPrologEpilogVideo ev.data1)) s)
    else
      let s := emit (.restartLockWaitUntil false) s
      .returned (finisher ev.data1 s)
  | .RETURN_TO_MENU_LOAD =>
    let s := emit .endGameplay s
    let s := { s with defActionsDef := 63 }
    .returned (emit (.switchToTab "load") s)
  | .FULLSCREEN_TOGGLED =>
    let s := emit .pimLock s
    let s := emit .onScreenResize s
    .returned (emit .pimUnlock s)
  | .other code => .returned (emit (.logError ("Unknown user event. Code " ++ toString code)) s)

/-- The switch over `ev.window.event` in `handleEvent` (lines 563-573). -/
def handleWindowEvent (ev : SDL_Event) (s : World) : Outcome :=
  if ev.windowEvent == SDL_WINDOWEVENT_RESTORED then
    let s := emit .pimLock s
    let s := emit .onScreenResize s
    .returned (emit .pimUnlock s)
  else .returned s

/-- Lines 584-587 of `handleEvent`: the cursor follows a mouse motion at once. -/
def preprocess (ev : SDL_Event) (s : World) : Outcome :=
  if ev.type == SDL_MOUSEMOTION then
    match s.CCS with
    | none => .crashed s
    | some c => if c.curh then .returned (emit (.cursorMove ev.x ev.y) s) else .crashed s
  else .returned s

/-- Lines 589-592 of `handleEvent`: the event is appended to `SDLEventsQueue` under `eventsM`. -/
def pushEvent (ev : SDL_Event) (s : World) : World :=
  let s := emit .eventsMLock s
  let s := { s with SDLEventsQueue := s.SDLEventsQueue ++ [ev] }
  emit .eventsMUnlock s

/-- Lines 575-592 of `handleEvent`, reached by an event on which no earlier branch returned:
a system event goes to the notification handler when notifications are on and the session is
not headless; then the event is preprocessed and queued. -/
def forwardEvent (ev : SDL_Event) (s : World) : Outcome :=
  let s :=
    if ev.type == SDL_SYSWMEVENT then
      if !headless s && (s.settings ["general", "notifications"]).asBool then
        emit .handleSdlEvent s
      else s
    else s
  (preprocess ev s).bind fun s => .returned (pushEvent ev s)

/-- The function `handleEvent` (lines 472-593).  `askDefault` is the default argument of
`handleQuit`, declared in CMT.h, which is not in src. -/
def handleEvent (askDefault : Bool) (env : Env) (ev : SDL_Event) (s : World) : Outcome :=
  if isQuitKey ev then
    handleQuit env askDefault s
  else if ev.type == SDL_KEYDOWN && ev.sym == SDLK_F4 then
    .returned (writeSetting ["video", "fullscreen"]
      (.bool (!(s.settings ["video", "fullscreen"]).asBool)) s)
  else if ev.type == SDL_USEREVENT then
    handleUserEvent env ev s
  else if ev.type == SDL_WINDOWEVENT then
    handleWindowEvent ev s
  else
    forwardEvent ev s

/-! ## mainLoop -/

/-- The inner loop of `mainLoop` (lines 608-611): the events polled in one iteration are handed
to `handleEvent` one by one, in the order `SDL_PollEvent` delivers them, each with the values
of `CSH->client` and `LOCPLINT` at that moment. -/
def runEvents (askDefault : Bool) : List (Env × SDL_Event) → World → Outcome
  | [], s => .returned s
  | (env, ev) :: rest, s =>
    match handleEvent askDefault env ev s with
    | .returned s => runEvents askDefault rest s
    | .exited c s => .exited c s
    | .crashed s => .crashed s

/-- One iteration of the outer loop of `mainLoop` (lines 606-614). -/
def mainLoopIteration (askDefault : Bool) (polled : List (Env × SDL_Event)) (s : World) :
    Outcome :=
  (runEvents askDefault polled s).bind fun s =>
    .returned (emit .renderFrame (emit .applyPacksOnLobbyScreen s))

/-- The outer loop of `mainLoop`, run for the iterations whose polled events are given. -/
def runFrames (askDefault : Bool) : List (List (Env × SDL_Event)) → World → Outcome
  | [], s => .returned s
  | polled :: rest, s =>
    match mainLoopIteration askDefault polled s with
    | .returned s => runFrames askDefault rest s
    | .exited c s => .exited c s
    | .crashed s => .crashed s

/-- The function `mainLoop` (lines 595-616): it registers the two settings listeners, marks
the GUI thread and loops; `returned` means that the loop is still running after the given
iterations. -/
def mainLoop (askDefault : Bool) (frames : List (List (Env × SDL_Event))) (s : World) :
    Outcome :=
  let s := { s with listeners := s.listeners ++ [["video", "resolution"], ["video", "fullscreen"]] }
  let s := emit .inGuiThreadReset s
  runFrames askDefault frames s

/-! ## Command line -/

/-- The value types of the options declared in `main` (lines 127-159). -/
inductive OptionKind
  | flag
  | text
  | int
  | si64
  | ui16
  | texts
  deriving DecidableEq, Repr

/-- The table of options that `main` declares (lines 127-159): the long name of each option
and the type of its value. -/
def declared (name : String) : Option OptionKind :=
  if name ∈ ["help", "version", "disable-shm", "enable-shm-uuid", "spectate",
      "spectate-ignore-hero", "spectate-skip-battle", "spectate-skip-battle-result", "onlyAI",
      "headless", "oneGoodAI", "autoSkip", "disable-video", "nointro", "donotstartserver",
      "lobby", "lobby-host"] then some .flag
  else if name ∈ ["testmap", "testsave", "saveprefix", "lobby-address", "lobby-uuid",
      "lobby-username", "uuid"] then some .text
  else if name ∈ ["spectate-hero-speed", "spectate-battle-speed"] then some .int
  else if name ∈ ["serverport", "savefrequency"] then some .si64
  else if name ∈ ["lobby-port", "lobby-connections", "lobby-gamemode"] then some .ui16
  else if name = "ai" then some .texts
  else none

/-- The `variables_map` that `main` fills from the command line: for each value type, the
options of that type that were given. -/
structure VariablesMap where
  /-- Options without a value. -/
  flag : String → Bool
  /-- Options declared with `po::value<std::string>()`. -/
  text : String → Option String
  /-- Options declared with `po::value<int>()`. -/
  int : String → Option Int
  /-- Options declared with `po::value<si64>()`. -/
  si64 : String → Option Int
  /-- Options declared with `po::value<ui16>()`. -/
  ui16 : String → Option Nat
  /-- Options declared with `po::value<std::vector<std::string>>()`. -/
  texts : String → Option (List String)

/-- The test `vm.count(name)`: the declared option `name` was given. -/
def VariablesMap.count (vm : VariablesMap) (name : String) : Bool :=
  match declared name with
  | some .flag => vm.flag name
  | some .text => (vm.text name).isSome
  | some .int => (vm.int name).isSome
  | some .si64 => (vm.si64 name).isSome
  | some .ui16 => (vm.ui16 name).isSome
  | some .texts => (vm.texts name).isSome
  | none => false

/-- The access `vm[name].as<std::string>()`; `none` stands for the exception it throws when
the option is absent or of another type. -/
def VariablesMap.asText (vm : VariablesMap) (name : String) : Option String :=
  if declared name = some .text then vm.text name else none

/-- The access `vm[name].as<int>()`. -/
def VariablesMap.asInt (vm : VariablesMap) (name : String) : Option Int :=
  if declared name = some .int then vm.int name else none

/-- The access `vm[name].as<si64>()`. -/
def VariablesMap.asSi64 (vm : VariablesMap) (name : String) : Option Int :=
  if declared name = some .si64 then vm.si64 name else none

/-- The access `vm[name].as<ui16>()`. -/
def VariablesMap.asUi16 (vm : VariablesMap) (name : String) : Option Nat :=
  if declared name = some .ui16 then vm.ui16 name else none

/-- The map before anything is stored in it. -/
def VariablesMap.empty : VariablesMap :=
  { flag := fun _ => false, text := fun _ => none, int := fun _ => none,
    si64 := fun _ => none, ui16 := fun _ => none, texts := fun _ => none }

/-- What `po::parse_command_line` did with `argv` (lines 161-171). -/
inductive CommandLine
  /-- No argument was given, `argc` is 1. -/
  | noArguments
  /-- Parsing threw; `what` is the text of the exception. -/
  | failed (what : String)
  /-- Parsing succeeded and the options were stored. -/
  | parsed (vm : VariablesMap)

/-- The global `vm` after line 173. -/
def CommandLine.vm : CommandLine → VariablesMap
  | .parsed vm => vm
  | _ => .empty

/-! ## main -/

/-- Everything `main` takes from outside the program.  `split` stands for `vstd::split`
(vstd/StringUtils.h is not in src) and `askDefault` for the default argument of `handleQuit`
(CMT.h is not in src). -/
structure Run where
  /-- Default argument of `handleQuit`. -/
  askDefault : Bool
  /-- The function `vstd::split`. -/
  split : String → String → Path
  /-- Outcome of parsing `argv`. -/
  commandLine : CommandLine
  /-- The probe `CResourceHandler::get()->existsResource(ResourceID(name))`. -/
  existsResource : String → Bool
  /-- Field `GH.isPointerRelativeMode`. -/
  isPointerRelativeMode : Bool
  /-- Result of playing the video 3DOLOGO.SMK. -/
  logoPlayed : Bool
  /-- The events polled in each observed iteration of the final loop. -/
  frames : List (List (Env × SDL_Event))

/-- The lambda `setSettingBool` of `main` (lines 220-226). -/
def setSettingBool (split : String → String → Path) (vm : VariablesMap) (key arg : String)
    (s : World) : World :=
  let p := split key "/"
  if vm.count arg then writeSetting p (.bool true) s
  else if (s.settings p).isNull then writeSetting p (.bool false) s
  else s

/-- The lambda `setSettingInteger` of `main` (lines 227-233). -/
def setSettingInteger (split : String → String → Path) (vm : VariablesMap) (key arg : String)
    (defaultValue : Int) (s : World) : Outcome :=
  let p := split key "/"
  if vm.count arg then
    match vm.asSi64 arg with
    | some v => .returned (writeSetting p (.integer v) s)
    | none => .crashed s
  else if (s.settings p).isNull then .returned (writeSetting p (.integer defaultValue) s)
  else .returned s

/-- The lambda `setSettingString` of `main` (lines 234-240). -/
def setSettingString (split : String → String → Path) (vm : VariablesMap) (key arg : String)
    (defaultValue : String) (s : World) : Outcome :=
  let p := split key "/"
  if vm.count arg then
    match vm.asText arg with
    | some v => .returned (writeSetting p (.string v) s)
    | none => .crashed s
  else if (s.settings p).isNull then .returned (writeSetting p (.string defaultValue) s)
  else .returned s

/-- Lines 243-258 of `main`: the session flags of the headless and spectator modes. -/
def sessionModes (vm : VariablesMap) (s : World) : Outcome :=
  if vm.count "headless" then
    let s := setNode ["session", "headless"] (.bool true) s
    .returned (setNode ["session", "onlyai"] (.bool true) s)
  else if vm.count "spectate" then
    let s := setNode ["session", "spectate"] (.bool true) s
    let s := setNode ["session", "spectate-ignore-hero"]
      (.bool (vm.count "spectate-ignore-hero")) s
    let s := setNode ["session", "spectate-skip-battle"]
      (.bool (vm.count "spectate-skip-battle")) s
    let s := setNode ["session", "spectate-skip-battle-result"]
      (.bool (vm.count "spectate-skip-battle-result")) s
    let heroSpeed : Outcome :=
      if vm.count "spectate-hero-speed" then
        match vm.asInt "spectate-hero-speed" with
        | some v => .returned (setNode ["session", "spectate-hero-speed"] (.integer v) s)
        | none => .crashed s
      else .returned s
    heroSpeed.bind fun s =>
      if vm.count "spectate-battle-speed" then
        match vm.asInt "spectate-battle-speed" with
        | some v => .returned (setNode ["session", "spectate-battle-speed"] (.float v) s)
        | none => .crashed s
      else .returned s
  else .returned s

/-- Lines 242-269 of `main`: the session settings taken from the command line. -/
def sessionSettings (split : String → String → Path) (vm : VariablesMap) (s : World) :
    Outcome :=
  let s := setSettingBool split vm "session/onlyai" "onlyAI" s
  (sessionModes vm s).bind fun s =>
    let s := setSettingBool split vm "session/donotstartserver" "donotstartserver" s
    let s := setSettingBool split vm "session/disable-shm" "disable-shm" s
    let s := setSettingBool split vm "session/enable-shm-uuid" "enable-shm-uuid" s
    (setSettingInteger split vm "session/serverport" "serverport" 0 s).bind fun s =>
      (setSettingString split vm "session/saveprefix" "saveprefix" "" s).bind fun s =>
        setSettingInteger split vm "general/saveFrequency" "savefrequency" 1 s

/-- The lambda `testFile` of `main` (lines 276-283). -/
def testFile (existsResource : String → Bool) (filename message : String) (s : World) :
    Bool × World :=
  if existsResource filename then (true, s)
  else (false, emit (.logError ("Error: " ++ message ++ " was not found!")) s)

/-- Lines 121-217 of `main` after the help and version tests: console, logging, file system. -/
def startLogging (s : World) : World :=
  let s := { emit (.startup .newConsole) s with console := true }
  let s := emit (.startup .consoleStart) s
  let s := { emit (.startup .newLogConfig) s with logConfig := true }
  let s := emit (.startup .logConfigureDefault) s
  let s := emit (.logInfo "Starting client of '%s'") s
  let s := emit (.logInfo "Creating console and configuring logger: %d ms") s
  let s := emit (.logInfo "The log file will be saved to %s") s
  emit (.startup .preinitDLL) s

/-- Lines 295-326 of `main`: GUI handler, client state, game info, server handler, video and
audio. -/
def createSubsystems (vm : VariablesMap) (s : World) : World :=
  let s := emit (.startup .srand) s
  let s := if !headless s then emit (.startup .GHInit) s else s
  let s := { emit (.startup .newCClientState) s with
    CCS := some { musich := false, soundh := false, curh := false, videoh := false } }
  let s := emit (.startup .newCGameInfo) s
  let s := emit (.startup .newCServerHandler) s
  let s := emit (.startup (.newVideoPlayer (!(!headless s && !vm.count "disable-video")))) s
  let s := { s with CCS := s.CCS.map fun c => { c with videoh := true } }
  let s := emit (.logInfo "\tInitializing video: %d ms") s
  if !headless s then
    let s := emit (.startup .soundInit) s
    let s := { s with CCS := s.CCS.map fun c => { c with soundh := true } }
    let s := emit (.startup .musicInit) s
    let s := { s with CCS := s.CCS.map fun c => { c with musich := true } }
    emit (.logInfo "Initializing screen and sound handling: %d ms") s
  else s

/-- The function `playIntro` (lines 464-470). -/
def playIntro (logoPlayed : Bool) (s : World) : Outcome :=
  match s.CCS with
  | none => .crashed s
  | some c =>
    if c.videoh then
      let s := emit (.startup (.openAndPlayVideo "3DOLOGO.SMK")) s
      if logoPlayed then .returned (emit (.startup (.openAndPlayVideo "AZVS.SMK")) s)
      else .returned s
    else .crashed s

/-- Lines 333-367 of `main`: touch hints, start of the loading thread, intro, join. -/
def loadAndIntro (r : Run) (s : World) : Outcome :=
  let s :=
    if r.isPointerRelativeMode then
      let s := emit (.startup (.setHint "SDL_HINT_MOUSE_TOUCH_EVENTS" "0")) s
      emit (.startup (.setHint "SDL_HINT_TOUCH_MOUSE_EVENTS" "0")) s
    else s
  let s := emit (.startup .loadingStart) s
  let shown : Outcome :=
    if !headless s then
      let played : Outcome :=
        if !r.commandLine.vm.count "battle" && !r.commandLine.vm.count "nointro" &&
            (s.settings ["video", "showIntro"]).asBool then
          playIntro r.logoPlayed s
        else .returned s
      played.bind fun s => .returned (emit (.startup .clearScreen) s)
    else .returned s
  shown.bind fun s => .returned (emit (.startup .loadingJoin) s)

/-- Lines 369-383 of `main`: graphics, cursor handler, message handler. -/
def createGraphics (s : World) : World :=
  let s :=
    if !headless s then
      let s := { emit (.startup .newGraphics) s with graphics := true }
      let s := emit (.startup .newCursorHandler) s
      let s := { s with CCS := s.CCS.map fun c => { c with curh := true } }
      let s := emit (.logInfo "Screen handler: %d ms") s
      let s := emit (.startup .messageInit) s
      let s := emit (.logInfo "Message handler: %d ms") s
      emit (.startup .cursorShow) s
    else s
  emit (.logInfo "Initialization of VCMI (together): %d ms") s

/-- Lines 385-406 of `main`: test map, test save or main menu.  The Boolean of the result
tells whether `mmenu` is non-empty. -/
def createMenu (vm : VariablesMap) (s : World) : Outcome × Bool :=
  let s := setNode ["session", "autoSkip"] (.bool (vm.count "autoSkip")) s
  let s := setNode ["session", "oneGoodAI"] (.bool (vm.count "oneGoodAI")) s
  let s := setNode ["session", "aiSolo"] (.bool false) s
  if vm.count "testmap" then
    match vm.asText "testmap" with
    | none => (.crashed s, false)
    | some file =>
      let s := setNode ["session", "testmap"] (.string file) s
      let s := setNode ["session", "onlyai"] (.bool true) s
      (.returned (emit (.startup (.debugStartTest file false)) s), false)
  else if vm.count "testsave" then
    match vm.asText "testsave" with
    | none => (.crashed s, false)
    | some file =>
      let s := setNode ["session", "testsave"] (.string file) s
      let s := setNode ["session", "onlyai"] (.bool true) s
      (.returned (emit (.startup (.debugStartTest file true)) s), false)
  else (.returned (emit (.startup .mainMenuCreate) s), true)

/-- Lines 426-432 of `main`: the settings of a client that hosts the lobby session. -/
def lobbyHost (vm : VariablesMap) (s : World) : Outcome :=
  if vm.count "lobby-host" then
    let s := setNode ["session", "host"] (.bool true) s
    match vm.asUi16 "lobby-connections" with
    | none => .crashed s
    | some n =>
      let s := setNode ["session", "hostConnections"] (.string (toString n)) s
      match vm.asText "lobby-uuid" with
      | none => .crashed s
      | some u =>
        let s := setNode ["session", "hostUuid"] (.string u) s
        .returned (emit (.logInfo "This client will host session, server uuid is %s") s)
  else .returned s

/-- Lines 408-442 of `main`: the remote lobby.  `mmenu` tells whether the main menu was
created.  The accessor `saveSession` lives to the end of the block, so its listeners are
notified after `openLobby`. -/
def startLobby (vm : VariablesMap) (mmenu : Bool) (s : World) : Outcome :=
  let s := setNode ["session", "lobby"] (.bool false) s
  if vm.count "lobby" then
    let s := setNode ["session", "lobby"] (.bool true) s
    let s := setNode ["session", "host"] (.bool false) s
    match vm.asText "lobby-address" with
    | none => .crashed s
    | some address =>
      let s := setNode ["session", "address"] (.string address) s
      let username : Outcome :=
        if vm.count "lobby-username" then
          match vm.asText "lobby-username" with
          | none => .crashed s
          | some name => .returned (setNode ["session", "username"] (.string name) s)
        else
          .returned (setNode ["session", "username"]
            (.string (s.settings ["launcher", "lobbyUsername"]).asString) s)
      username.bind fun s =>
        let gamemode : Outcome :=
          if vm.count "lobby-gamemode" then
            match vm.asUi16 "lobby-gamemode" with
            | none => .crashed s
            | some g => .returned (setNode ["session", "gamemode"] (.integer g) s)
          else .returned (setNode ["session", "gamemode"] (.integer 0) s)
        gamemode.bind fun s =>
          match vm.asText "uuid" with
          | none => .crashed s
          | some _ =>
            match vm.asUi16 "lobby-port" with
            | none => .crashed s
            | some port =>
              let s := setNode ["session", "port"] (.integer port) s
              let s := emit (.logInfo "Remote lobby mode at %s:%d, uuid is %s") s
              (lobbyHost vm s).bind fun s =>
                let changed := s.settings ["server", "reconnect"] != .bool false
                let s := setNode ["server", "reconnect"] (.bool false) s
                let names := [(s.settings ["session", "username"]).asString]
                let loadGame := !((s.settings ["session", "gamemode"]).asInteger == 0)
                if mmenu then
                  let s := emit (.startup (.openLobby loadGame
                    (s.settings ["session", "host"]).asBool names)) s
                  .returned (if changed then notify ["server", "reconnect"] s else s)
                else .crashed s
  else .returned s

/-- The loop `while(true) sleep(1000)` of a headless client, observed for `n` iterations. -/
def headlessLoop : Nat → World → World
  | 0, s => s
  | n + 1, s => headlessLoop n (emit (.sleep 1000) s)

/-- Lines 295-460 of `main`, reached when the mandatory data is there. -/
def runClient (r : Run) (s : World) : Outcome :=
  let vm := r.commandLine.vm
  let s := (testFile r.existsResource "VIDEO/GOOD1A.SMK" "campaign movies" s).2
  let s := (testFile r.existsResource "SOUNDS/G1A.WAV" "campaign music" s).2
  let s := createSubsystems vm s
  (loadAndIntro r s).bind fun s =>
    let s := createGraphics s
    let menu := createMenu vm s
    menu.1.bind fun s =>
      (startLobby vm menu.2 s).bind fun s =>
        let s :=
          if (s.settings ["server", "reconnect"]).asBool then
            emit (.startup .restoreLastSession) s
          else s
        if !headless s then mainLoop r.askDefault r.frames s
        else .returned (headlessLoop r.frames.length s)

/-- The function `main` (lines 112-461).  `exited code` also stands for `return code`;
`returned` means that the final loop is still running after the observed iterations. -/
def main (r : Run) (s : World) : Outcome :=
  let vm := r.commandLine.vm
  let s := emit (.startup .currentPath) s
  let s := emit (.cout "Starting... ") s
  let s :=
    match r.commandLine with
    | .failed what =>
      emit (.startup (.cerr ("Failure during parsing command-line options:\n" ++ what))) s
    | _ => s
  if vm.count "help" then .exited 0 (emit (.startup .progHelp) s)
  else if vm.count "version" then .exited 0 (emit (.startup .progVersion) s)
  else
    let s := startLogging s
    (sessionSettings r.split vm s).bind fun s =>
      let s := emit (.startup .logConfigure) s
      let s := emit (.logInfo "settings = %s") s
      let help := testFile r.existsResource "DATA/HELP.TXT" "Heroes III data" s
      if !help.1 then .exited 1 help.2
      else
        let mod := testFile r.existsResource "MODS/VCMI/MOD.JSON" "VCMI data" help.2
        if !mod.1 then .exited 1 mod.2
        else runClient r mod.2

/-- The result of `exit(code)` or of `return code` in `main`, if the run ended that way. -/
def Outcome.exitCode : Outcome → Option Nat
  | .exited code _ => some code
  | _ => none

/-- The calls of `main` that create a subsystem: GUI handler, client state, game info, server
handler, video, audio, loading thread, graphics, cursor and message handlers, main menu. -/
def subsystemCreations : List Effect :=
  [.startup .GHInit, .startup .newCClientState, .startup .newCGameInfo,
   .startup .newCServerHandler, .startup (.newVideoPlayer true),
   .startup (.newVideoPlayer false), .startup .soundInit, .startup .musicInit,
   .startup .loadingStart, .startup .newGraphics, .startup .newCursorHandler,
   .startup .messageInit, .startup .mainMenuCreate]

/-- No call that creates a subsystem was made between `s` and `s'`. -/
def sameCreations (s s' : World) : Prop :=
  ∀ e ∈ subsystemCreations, s'.trace.count e = s.trace.count e

/-- A command line without arguments and nothing polled. -/
def plainRun (existsResource : String → Bool) : Run :=
  { askDefault := true
    split := fun key sep => key.splitOn sep
    commandLine := .noArguments
    existsResource := existsResource
    isPointerRelativeMode := false
    logoPlayed := true
    frames := [] }

/-- The process at its start: no subsystem exists and nothing has been called. -/
def processStart : World :=
  { settings := fun _ => .null
    listeners := []
    CCS := none
    graphics := false
    VLC := false
    console := false
    logConfig := false
    CMM := false
    defActionsDef := 0
    SDLEventsQueue := []
    trace := [] }

/-! ## Sample states and events -/

/-- A non-headless session inside `mainLoop`: every subsystem is there, the two listeners
are registered and the settings tree holds nothing yet. -/
def guiWorld : World :=
  { settings := fun _ => .null
    listeners := [["video", "resolution"], ["video", "fullscreen"]]
    CCS := some { musich := true, soundh := true, curh := true, videoh := true }
    graphics := true
    VLC := true
    console := true
    logConfig := true
    CMM := true
    defActionsDef := 0
    SDLEventsQueue := []
    trace := [] }

/-- The same session started with `--headless`: no audio and no cursor handler. -/
def headlessWorld : World :=
  { guiWorld with
    settings := SettingsTree.write (fun _ => .null) ["session", "headless"] (.bool true)
    listeners := []
    CCS := some { musich := false, soundh := false, curh := false, videoh := true }
    graphics := false }

/-- A game is running and a human player is at the screen. -/
def inGame : Env := { client := true, LOCPLINT := true }

/-- No game is running: the client sits in the menu. -/
def inMenu : Env := { client := false, LOCPLINT := false }

/-- An event of the given type with every payload field zero. -/
def plainEvent (type : Nat) : SDL_Event :=
  { type := type, sym := 0, keymod := 0, code := .other 0,
    data1 := { epilogHasPrologEpilog := false, mapsRemaining := [] },
    windowEvent := 0, x := 0, y := 0 }

/-- A key-down of F4 with the given modifier mask. -/
def f4Down (keymod : Nat) : SDL_Event :=
  { plainEvent SDL_KEYDOWN with sym := SDLK_F4, keymod := keymod }

/-- A user event with the given code. -/
def userEvent (code : EUserEvent) : SDL_Event :=
  { plainEvent SDL_USEREVENT with code := code }

/-- The calls of a complete shutdown of a running, non-headless session, in program order. -/
def fullShutdown : List Effect :=
  [.endGameplay,
   .listIntClear, .objsToBlitClear, .CMMReset,
   .musichRelease, .soundhRelease, .clearPointer .CCS,
   .messageDispose, .clearPointer .graphics,
   .clearPointer .VLC,
   .clearPointer .console,
   .sleep 750,
   .screenHandlerClose,
   .logConfigDeconfigure, .logConfigDelete,
   .cout "Ending...\n"]

/-- The calls that `quitApplication` adds to the trace when it starts in `s`. -/
def quitEffects (env : Env) (s : World) : List Effect :=
  (quitApplication env { s with trace := [] }).world.trace

/-- The ask flag with which `handleEvent` calls `handleQuit` for a quit event: the default
argument on `SDL_QUIT` and Alt+F4, `false` on `FORCE_QUIT`. -/
def quitAsk (askDefault : Bool) (ev : SDL_Event) : Bool :=
  if isQuitKey ev then askDefault else false

/-- A quit event: `SDL_QUIT`, a key-down of F4 with Alt, or the user event `FORCE_QUIT`. -/
def isQuitEvent (ev : SDL_Event) : Bool :=
  isQuitKey ev || (ev.type == SDL_USEREVENT && ev.code == .FORCE_QUIT)

/-- An event that is neither a key-down of F4, nor a user event, nor a window event. -/
def isPushed (ev : SDL_Event) : Bool :=
  !(ev.type == SDL_KEYDOWN && ev.sym == SDLK_F4) && ev.type != SDL_USEREVENT &&
    ev.type != SDL_WINDOWEVENT

/-- The events that make `handleEvent` call `GH.onScreenResize`: the user event
`FULLSCREEN_TOGGLED` and the window event `SDL_WINDOWEVENT_RESTORED`. -/
def isResize (ev : SDL_Event) : Bool :=
  (ev.type == SDL_USEREVENT && ev.code == .FULLSCREEN_TOGGLED) ||
    (ev.type == SDL_WINDOWEVENT && ev.windowEvent == SDL_WINDOWEVENT_RESTORED)

/-- The run did not end in `exit` or `return` with a status other than 0. -/
def Outcome.exitsOnlyZero (o : Outcome) : Prop :=
  ∀ code, o.exitCode = some code → code = 0

/-- The command line `--onlyAI --serverport 3030 --saveprefix test`. -/
def sampleOptions : VariablesMap :=
  { VariablesMap.empty with
    flag := fun n => n == "onlyAI"
    si64 := fun n => if n == "serverport" then some 3030 else none
    text := fun n => if n == "saveprefix" then some "test" else none }

/-- The run ended in a crash. -/
def Outcome.isCrashed : Outcome → Bool
  | .crashed _ => true
  | _ => false

/-- The audio handlers are there whenever `quitApplication` calls through them: `CCS` is null,
or the session is headless, or both `musich` and `soundh` are non-null. -/
def audioReady (s : World) : Bool :=
  match s.CCS with
  | none => true
  | some c => headless s || (c.musich && c.soundh)

/-- The calls of a shutdown in program order, with the steps of the subsystems that are
missing left out: no endGameplay without a live client, no audio release and no free of `CCS`
when `CCS` is null, none of the GUI-side steps in a headless session, no deconfigure and
delete when `logConfig` is null. -/
def shutdownCalls (env : Env) (s : World) : List Effect :=
  (if !headless s && env.client then [.endGameplay] else []) ++
  [.listIntClear, .objsToBlitClear, .CMMReset] ++
  (if !headless s then
    (if s.CCS.isSome then [.musichRelease, .soundhRelease, .clearPointer .CCS] else []) ++
      [.messageDispose, .clearPointer .graphics]
   else []) ++
  [.clearPointer .VLC, .clearPointer .console, .sleep 750] ++
  (if !headless s then [.screenHandlerClose] else []) ++
  (if s.logConfig then [.logConfigDeconfigure, .logConfigDelete] else []) ++
  [.cout "Ending...\n"]

/-- A non-headless session whose client state holds a sound handler but no music handler. -/
def silentWorld : World :=
  { guiWorld with
    CCS := some { musich := false, soundh := true, curh := true, videoh := true } }

/-- A session in which every subsystem is missing or already released. -/
def bareWorld : World :=
  { guiWorld with CCS := none, graphics := false, VLC := false, console := false,
                  logConfig := false }

/-- The state `s'` continues `s`: its trace is the trace of `s` followed by calls that all
satisfy `P`. -/
def extendsBy (P : Effect → Prop) (s s' : World) : Prop :=
  s.trace <+: s'.trace ∧ ∀ e ∈ s'.trace.drop s.trace.length, P e

/-- The calls that must wait for the loading thread: the join itself, the construction of the
main menu, of Graphics and of the cursor handler, and the rendering of a frame. -/
def barrierCalls : List Effect :=
  [.startup .loadingJoin, .startup .mainMenuCreate, .startup .newGraphics,
   .startup .newCursorHandler, .renderFrame]

/-- A call that only `main` makes. -/
def Effect.isStartup : Effect → Bool
  | .startup _ => true
  | _ => false

/-- The command line `--testmap maps/test --lobby --lobby-address 127.0.0.1 --lobby-port 3030
--uuid client`. -/
def testmapLobbyOptions : VariablesMap :=
  { VariablesMap.empty with
    flag := fun n => n == "lobby"
    text := fun n =>
      if n == "testmap" then some "maps/test"
      else if n == "lobby-address" then some "127.0.0.1"
      else if n == "uuid" then some "client"
      else none
    ui16 := fun n => if n == "lobby-port" then some 3030 else none }

/-- A start with the command line `testmapLobbyOptions`, every resource in place. -/
def testmapLobbyRun : Run :=
  { plainRun (fun _ => true) with commandLine := .parsed testmapLobbyOptions }

/-- The state `s` in which the calls `pre` were made before those of its trace. -/
def World.after (pre : List Effect) (s : World) : World :=
  { s with trace := pre ++ s.trace }

/-- The outcome `o` of a run before which the calls `pre` were made. -/
def Outcome.after (pre : List Effect) : Outcome → Outcome
  | .returned s => .returned (s.after pre)
  | .exited code s => .exited code (s.after pre)
  | .crashed s => .crashed (s.after pre)

/-- The outcome `o` with the trace of its final state replaced by `t`. -/
def Outcome.withTrace (o : Outcome) (t : List Effect) : Outcome :=
  match o with
  | .returned s => .returned { s with trace := t }
  | .exited code s => .exited code { s with trace := t }
  | .crashed s => .crashed { s with trace := t }

/-- The run `r` on an installation that also holds the two optional files of lines 291-292. -/
def withOptionalFiles (r : Run) : Run :=
  { r with
    existsResource := fun name =>
      name == "VIDEO/GOOD1A.SMK" || name == "SOUNDS/G1A.WAV" || r.existsResource name }

/-- What the two calls of `testFile` at lines 291-292 log: one error for each of the two
optional files that does not exist. -/
def optionalProbeLog (r : Run) : List Effect :=
  (if r.existsResource "VIDEO/GOOD1A.SMK" then []
    else [.logError "Error: campaign movies was not found!"]) ++
  (if r.existsResource "SOUNDS/G1A.WAV" then []
    else [.logError "Error: campaign music was not found!"])

/-! ## Theorems -/

/-! ### Shared facts about `quitApplication` and `handleQuit` -/

theorem quitApplication_trace (env : Env) (s : World) :
    (quitApplication env s).world.trace = s.trace ++ quitEffects env s := by
  rcases env with ⟨cl, lp⟩
  have key : ∀ b, (s.settings ["session", "headless"]).asBool = b →
      (quitApplication ⟨cl, lp⟩ s).world.trace = s.trace ++ quitEffects ⟨cl, lp⟩ s := by
    intro b hH
    rcases hC : s.CCS with _ | ⟨m, sd, cu, vi⟩ <;> cases hl : s.logConfig <;> cases b <;>
      cases cl <;> (try cases m) <;> (try cases sd) <;>
      simp [quitEffects, quitApplication, releaseClientState, quitTail, Outcome.bind, emit,
        headless, Outcome.world, hH, hl, hC]
  exact key _ rfl

theorem quitEffects_subset (env : Env) (s : World) :
    ∀ e ∈ quitEffects env s, e ∈ fullShutdown := by
  rcases env with ⟨cl, lp⟩
  have key : ∀ b, (s.settings ["session", "headless"]).asBool = b →
      ∀ e ∈ quitEffects ⟨cl, lp⟩ s, e ∈ fullShutdown := by
    intro b hH
    rcases hC : s.CCS with _ | ⟨m, sd, cu, vi⟩ <;> cases hl : s.logConfig <;> cases b <;>
      cases cl <;> (try cases m) <;> (try cases sd) <;>
      simp [quitEffects, quitApplication, releaseClientState, quitTail, Outcome.bind, emit,
        headless, Outcome.world, hH, hl, hC, fullShutdown]
  exact key _ rfl

theorem quitApplication_frame (env : Env) (s : World) :
    (quitApplication env s).world.settings = s.settings ∧
      (quitApplication env s).world.SDLEventsQueue = s.SDLEventsQueue := by
  rcases env with ⟨cl, lp⟩
  have key : ∀ b, (s.settings ["session", "headless"]).asBool = b →
      (quitApplication ⟨cl, lp⟩ s).world.settings = s.settings ∧
        (quitApplication ⟨cl, lp⟩ s).world.SDLEventsQueue = s.SDLEventsQueue := by
    intro b hH
    rcases hC : s.CCS with _ | ⟨m, sd, cu, vi⟩ <;> cases hl : s.logConfig <;> cases b <;>
      cases cl <;> (try cases m) <;> (try cases sd) <;>
      simp [quitApplication, releaseClientState, quitTail, Outcome.bind, emit,
        headless, Outcome.world, hH, hl, hC]
  exact key _ rfl

theorem quitApplication_not_returned (env : Env) (s s' : World) :
    quitApplication env s ≠ .returned s' := by
  rcases env with ⟨cl, lp⟩
  have key : ∀ b, (s.settings ["session", "headless"]).asBool = b →
      quitApplication ⟨cl, lp⟩ s ≠ .returned s' := by
    intro b hH
    rcases hC : s.CCS with _ | ⟨m, sd, cu, vi⟩ <;> cases hl : s.logConfig <;> cases b <;>
      cases cl <;> (try cases m) <;> (try cases sd) <;>
      simp [quitApplication, releaseClientState, quitTail, Outcome.bind, emit,
        headless, Outcome.world, hH, hl, hC]
  exact key _ rfl

theorem quitApplication_not_exit_one (env : Env) (s s' : World) (code : Nat)
    (h : quitApplication env s = .exited code s') : code = 0 := by
  rcases env with ⟨cl, lp⟩
  have key : ∀ b, (s.settings ["session", "headless"]).asBool = b →
      quitApplication ⟨cl, lp⟩ s = .exited code s' → code = 0 := by
    intro b hH
    rcases hC : s.CCS with _ | ⟨m, sd, cu, vi⟩ <;> cases hl : s.logConfig <;> cases b <;>
      cases cl <;> (try cases m) <;> (try cases sd) <;>
      simp [quitApplication, releaseClientState, quitTail, Outcome.bind, emit,
        headless, Outcome.world, hH, hl, hC] <;>
      intro h _ <;> exact h.symm
  exact key _ rfl h

theorem count_zero_of_subset_fullShutdown (d : List Effect) (e : Effect)
    (hd : ∀ x ∈ d, x ∈ fullShutdown) (he : e ∉ fullShutdown) : d.count e = 0 := by
  apply List.count_eq_zero.mpr
  intro hmem
  exact he (hd e hmem)

theorem quitApplication_count (env : Env) (s : World) (e : Effect) (he : e ∉ fullShutdown) :
    (quitApplication env s).world.trace.count e = s.trace.count e := by
  rw [quitApplication_trace, List.count_append,
    count_zero_of_subset_fullShutdown _ e (quitEffects_subset env s) he]
  simp

/-! ### C1 -/

/-- C1: in a non-headless session with a live client, with `CCS` non-null and holding its
music and sound handlers (main creates both in every non-headless session) and with
`logConfig` non-null, `quitApplication` ends in `exit(0)` and the calls it has made are, in
this order and once each: endGameplay; clear of the window list and of the blit list, reset
of CMM; release of music, release of sound, free of CCS; CMessage::dispose, free of graphics;
free of VLC; free of console; sleep 750 ms; close of the screen handler; deconfigure and
delete of logConfig; the line Ending on standard output. -/
theorem quitApplication_order (env : Env) (s : World) (c : CClientState)
    (hh : headless s = false) (hc : env.client = true)
    (hccs : s.CCS = some c) (hm : c.musich = true) (hs : c.soundh = true)
    (hl : s.logConfig = true) :
    ∃ s', quitApplication env s = .exited 0 s' ∧ s'.trace = s.trace ++ fullShutdown := by
  have hh' : (s.settings ["session", "headless"]).asBool = false := hh
  simp [quitApplication, releaseClientState, quitTail, Outcome.bind, emit, headless, fullShutdown,
    hc, hccs, hm, hs, hl, hh']

/-- Witness of C1 on the sample non-headless session with a running game. -/
theorem quitApplication_order_witness :
    ∃ s', quitApplication inGame guiWorld = .exited 0 s' ∧
      s'.trace = guiWorld.trace ++ fullShutdown :=
  quitApplication_order inGame guiWorld
    { musich := true, soundh := true, curh := true, videoh := true } rfl rfl rfl rfl rfl rfl

/-! ### C10 -/

/-- C10, as stated, fails in a headless session: a live client exists, yet `quitApplication`
never calls endGameplay and its first call is the clear of the window list. -/
theorem quitApplication_headless_keeps_session :
    inGame.client = true ∧ headless headlessWorld = true ∧
      (quitApplication inGame headlessWorld).world.trace =
        [.listIntClear, .objsToBlitClear, .CMMReset, .clearPointer .VLC,
         .clearPointer .console, .sleep 750, .logConfigDeconfigure, .logConfigDelete,
         .cout "Ending...\n"] := by
  decide

/-- C10 amended: when a live client exists and the session is not headless, the first call of
`quitApplication` is endGameplay and the clears of the window list and the blit list follow
it; when no live client exists or the session is headless, `quitApplication` does not call
endGameplay. -/
theorem quitApplication_endGameplay (env : Env) (s : World) :
    (env.client = true → headless s = false →
      ∃ rest, (quitApplication env s).world.trace =
        s.trace ++ .endGameplay :: .listIntClear :: .objsToBlitClear :: rest) ∧
    ((env.client = false ∨ headless s = true) →
      (quitApplication env s).world.trace.count .endGameplay = s.trace.count .endGameplay) := by
  rcases env with ⟨cl, lp⟩
  have key : ∀ b, (s.settings ["session", "headless"]).asBool = b →
      (cl = true → b = false →
        ∃ rest, (quitApplication ⟨cl, lp⟩ s).world.trace =
          s.trace ++ .endGameplay :: .listIntClear :: .objsToBlitClear :: rest) ∧
      ((cl = false ∨ b = true) →
        (quitApplication ⟨cl, lp⟩ s).world.trace.count .endGameplay =
          s.trace.count .endGameplay) := by
    intro b hH
    rcases hC : s.CCS with _ | ⟨m, sd, cu, vi⟩ <;> cases hl : s.logConfig <;> cases b <;>
      cases cl <;> (try cases m) <;> (try cases sd) <;>
      simp [quitApplication, releaseClientState, quitTail, Outcome.bind, emit,
        headless, Outcome.world, hH, hl, hC, List.count_append]
  exact key _ rfl

/-- Witness of the amended C10: one non-headless run and one headless run. -/
theorem quitApplication_endGameplay_witness :
    (∃ rest, (quitApplication inGame guiWorld).world.trace =
        guiWorld.trace ++ .endGameplay :: .listIntClear :: .objsToBlitClear :: rest) ∧
      (quitApplication inGame headlessWorld).world.trace.count .endGameplay =
        headlessWorld.trace.count .endGameplay :=
  ⟨(quitApplication_endGameplay inGame guiWorld).1 rfl rfl,
   (quitApplication_endGameplay inGame headlessWorld).2 (Or.inr rfl)⟩

/-! ### C5 -/

theorem handleQuit_frame (env : Env) (ask : Bool) (s : World) :
    (handleQuit env ask s).world.settings = s.settings ∧
      (handleQuit env ask s).world.SDLEventsQueue = s.SDLEventsQueue := by
  unfold handleQuit
  split
  · rcases hC : s.CCS with _ | ⟨m, sd, cu, vi⟩
    · simp [Outcome.world]
    · cases cu <;> simp [Outcome.world, emit]
  · exact quitApplication_frame env s

/-- C5: `handleQuit(ask)` opens the yes/no dialog exactly when a client exists, a player
interface exists and ask is true.  In that case no shutdown call is made, and with the cursor
handler in place the calls are the cursor change and the dialog, after which control returns.
In every other case `handleQuit` is `quitApplication`, which opens no dialog.  The accept
callback of the dialog unlocks eventsM and the calls of `quitApplication` follow at once. -/
theorem handleQuit_dialog_or_quit (env : Env) (ask : Bool) (s : World) :
    ((env.client = true ∧ env.LOCPLINT = true ∧ ask = true) →
      (∀ e ∈ fullShutdown, (handleQuit env ask s).world.trace.count e = s.trace.count e) ∧
      (∀ c, s.CCS = some c → c.curh = true →
        handleQuit env ask s =
          .returned { s with trace := s.trace ++ [.cursorSetPointer, .showYesNoDialog 69] })) ∧
    (¬ (env.client = true ∧ env.LOCPLINT = true ∧ ask = true) →
      handleQuit env ask s = quitApplication env s ∧
      (handleQuit env ask s).world.trace.count (.showYesNoDialog 69) =
        s.trace.count (.showYesNoDialog 69)) ∧
    (quitDialogAccepted env s).world.trace =
      s.trace ++ .eventsMUnlock :: quitEffects env s := by
  refine ⟨?_, ?_, ?_⟩
  · rintro ⟨h1, h2, h3⟩
    constructor
    · intro e he
      rcases hC : s.CCS with _ | ⟨m, sd, cu, vi⟩
      · simp [handleQuit, h1, h2, h3, hC, Outcome.world]
      · cases cu
        · simp [handleQuit, h1, h2, h3, hC, Outcome.world]
        · have h69 : Effect.showYesNoDialog 69 ≠ e := by
            intro h; subst h; revert he; decide
          have hcur : Effect.cursorSetPointer ≠ e := by
            intro h; subst h; revert he; decide
          simp [handleQuit, h1, h2, h3, hC, Outcome.world, emit, List.count_append,
            List.count_cons, h69, hcur]
    · intro c hC hcur
      simp [handleQuit, h1, h2, h3, hC, hcur, emit]
  · intro hn
    have hq : handleQuit env ask s = quitApplication env s := by
      unfold handleQuit
      rw [if_neg]
      simpa using hn
    refine ⟨hq, ?_⟩
    rw [hq]
    exact quitApplication_count env s _ (by decide)
  · unfold quitDialogAccepted
    rw [quitApplication_trace]
    simp [emit, quitEffects]

/-- Witness of C5: the dialog in a running game, the direct shutdown from the menu. -/
theorem handleQuit_dialog_or_quit_witness :
    handleQuit inGame true guiWorld =
        .returned { guiWorld with
          trace := guiWorld.trace ++ [.cursorSetPointer, .showYesNoDialog 69] } ∧
      handleQuit inMenu true guiWorld = quitApplication inMenu guiWorld :=
  ⟨((handleQuit_dialog_or_quit inGame true guiWorld).1 ⟨rfl, rfl, rfl⟩).2 _ rfl rfl,
   ((handleQuit_dialog_or_quit inMenu true guiWorld).2.1 (by decide)).1⟩

/-! ### C2 -/

theorem toggle_ne (n : JsonNode) : n ≠ .bool (!n.asBool) := by
  cases n <;> simp [JsonNode.asBool]

/-- C2: on a key-down of F4 with an Alt modifier `handleEvent` is `handleQuit` with the
default ask flag, and neither the settings nor `SDLEventsQueue` change.  On a key-down of F4
without Alt it returns after negating `video/fullscreen` once; the only calls are the
notifications of the settings listeners on that path, and `SDLEventsQueue` and every other
part of the state are unchanged. -/
theorem handleEvent_F4 (askDefault : Bool) (env : Env) (ev : SDL_Event) (s : World)
    (hk : ev.type = SDL_KEYDOWN) (hf : ev.sym = SDLK_F4) :
    (ev.keymod &&& KMOD_ALT ≠ 0 →
      handleEvent askDefault env ev s = handleQuit env askDefault s ∧
      (handleEvent askDefault env ev s).world.settings = s.settings ∧
      (handleEvent askDefault env ev s).world.SDLEventsQueue = s.SDLEventsQueue) ∧
    (ev.keymod &&& KMOD_ALT = 0 →
      handleEvent askDefault env ev s = .returned
        { s with
          settings := s.settings.write ["video", "fullscreen"]
            (.bool (!(s.settings ["video", "fullscreen"]).asBool))
          trace := s.trace ++
            (s.listeners.filter (fun l => listens l ["video", "fullscreen"])).map
              (fun _ => Effect.pushUserEvent EUserEvent.FULLSCREEN_TOGGLED) }) := by
  constructor
  · intro ha
    have hq : handleEvent askDefault env ev s = handleQuit env askDefault s := by
      simp [handleEvent, isQuitKey, hk, hf, ha]
    rw [hq]
    exact ⟨rfl, handleQuit_frame env askDefault s⟩
  · intro ha
    have hne := toggle_ne (s.settings ["video", "fullscreen"])
    simp [handleEvent, isQuitKey, hk, hf, ha, writeSetting, notify, setNode, hne, SDL_KEYDOWN,
      SDL_QUIT]

/-- Witness of C2: F4 with left Alt and F4 alone, in the menu. -/
theorem handleEvent_F4_witness :
    handleEvent true inMenu (f4Down 0x100) guiWorld = handleQuit inMenu true guiWorld ∧
      handleEvent true inMenu (f4Down 0) guiWorld = .returned
        { guiWorld with
          settings := guiWorld.settings.write ["video", "fullscreen"]
            (.bool (!(guiWorld.settings ["video", "fullscreen"]).asBool))
          trace := guiWorld.trace ++
            (guiWorld.listeners.filter (fun l => listens l ["video", "fullscreen"])).map
              (fun _ => Effect.pushUserEvent EUserEvent.FULLSCREEN_TOGGLED) } :=
  ⟨((handleEvent_F4 true inMenu (f4Down 0x100) guiWorld rfl rfl).1 (by decide)).1,
   (handleEvent_F4 true inMenu (f4Down 0) guiWorld rfl rfl).2 (by decide)⟩

/-! ### C3 -/

/-- C3: on a `CAMPAIGN_START_SCENARIO` user event `handleEvent` first sets the restart lock
to true and then ends gameplay.  With an epilogue it pushes the epilogue video window that
carries the continuation and returns without waiting on the lock.  Without one it waits until
the lock is false and then runs the continuation once: the main menu and its menu window are
pushed and the campaign lobby is opened when maps remain. -/
theorem handleEvent_campaignStart (askDefault : Bool) (env : Env) (ev : SDL_Event) (s : World)
    (ht : ev.type = SDL_USEREVENT) (hc : ev.code = EUserEvent.CAMPAIGN_START_SCENARIO) :
    (ev.data1.epilogHasPrologEpilog = true →
      handleEvent askDefault env ev s = .returned
        { s with trace := s.trace ++
            [.restartLockSet true, .endGameplay, .pushInt (.CPrologEpilogVideo ev.data1)] }) ∧
    (ev.data1.epilogHasPrologEpilog = false →
      handleEvent askDefault env ev s = .returned
        { s with trace := s.trace ++
            [.restartLockSet true, .endGameplay, .restartLockWaitUntil false] ++
            (if ev.data1.mapsRemaining = [] then []
             else [.pushInt .CMM, .pushInt .CMM_menu, .openCampaignLobby ev.data1]) }) := by
  constructor
  · intro he
    simp [handleEvent, isQuitKey, ht, hc, handleUserEvent, he, emit, SDL_USEREVENT, SDL_QUIT,
      SDL_KEYDOWN]
  · intro he
    by_cases hm : ev.data1.mapsRemaining = []
    · simp [handleEvent, isQuitKey, ht, hc, handleUserEvent, he, emit, SDL_USEREVENT, SDL_QUIT,
        SDL_KEYDOWN, finisher, hm]
    · simp [handleEvent, isQuitKey, ht, hc, handleUserEvent, he, emit, SDL_USEREVENT, SDL_QUIT,
        SDL_KEYDOWN, finisher, hm]

/-- Witness of C3: a campaign with an epilogue video and one without, two maps remaining. -/
theorem handleEvent_campaignStart_witness :
    handleEvent true inGame
        { userEvent EUserEvent.CAMPAIGN_START_SCENARIO with
          data1 := { epilogHasPrologEpilog := true, mapsRemaining := [1, 2] } } guiWorld =
      .returned { guiWorld with trace := guiWorld.trace ++
        [.restartLockSet true, .endGameplay,
         .pushInt (.CPrologEpilogVideo
           { epilogHasPrologEpilog := true, mapsRemaining := [1, 2] })] } ∧
    handleEvent true inGame
        { userEvent EUserEvent.CAMPAIGN_START_SCENARIO with
          data1 := { epilogHasPrologEpilog := false, mapsRemaining := [1, 2] } } guiWorld =
      .returned { guiWorld with trace := guiWorld.trace ++
        [.restartLockSet true, .endGameplay, .restartLockWaitUntil false] ++
        (if ({ epilogHasPrologEpilog := false, mapsRemaining := [1, 2] } :
            CCampaignState).mapsRemaining = [] then []
         else [.pushInt .CMM, .pushInt .CMM_menu,
           .openCampaignLobby { epilogHasPrologEpilog := false, mapsRemaining := [1, 2] }]) } :=
  ⟨(handleEvent_campaignStart true inGame
      { userEvent EUserEvent.CAMPAIGN_START_SCENARIO with
        data1 := { epilogHasPrologEpilog := true, mapsRemaining := [1, 2] } }
      guiWorld rfl rfl).1 rfl,
   (handleEvent_campaignStart true inGame
      { userEvent EUserEvent.CAMPAIGN_START_SCENARIO with
        data1 := { epilogHasPrologEpilog := false, mapsRemaining := [1, 2] } }
      guiWorld rfl rfl).2 rfl⟩

/-! ### C8 -/

theorem handleQuit_count (env : Env) (ask : Bool) (s : World) (e : Effect)
    (he : e ∉ fullShutdown) (h1 : e ≠ .cursorSetPointer) (h2 : e ≠ .showYesNoDialog 69) :
    (handleQuit env ask s).world.trace.count e = s.trace.count e := by
  unfold handleQuit
  split
  · rcases hC : s.CCS with _ | ⟨m, sd, cu, vi⟩
    · simp [Outcome.world]
    · cases cu <;>
        simp [Outcome.world, emit, List.count_append, List.count_cons, Ne.symm h1, Ne.symm h2]
  · exact quitApplication_count env s e he

theorem count_map_const_ne (l : List Path) (a e : Effect) (h : a ≠ e) :
    (l.map (fun _ => a)).count e = 0 := by
  apply List.count_eq_zero.mpr
  intro hm
  rcases List.mem_map.mp hm with ⟨_, _, rfl⟩
  exact h rfl

theorem forwardEvent_world (ev : SDL_Event) (s : World) (e : Effect)
    (h1 : e ≠ .handleSdlEvent) (h2 : e ≠ .cursorMove ev.x ev.y) (h3 : e ≠ .eventsMLock)
    (h4 : e ≠ .eventsMUnlock) :
    (forwardEvent ev s).world.trace.count e = s.trace.count e := by
  unfold forwardEvent preprocess pushEvent
  cases c1 : (ev.type == SDL_SYSWMEVENT) <;> cases c2 : (ev.type == SDL_MOUSEMOTION) <;>
    cases c3 : (!headless s && (s.settings ["general", "notifications"]).asBool) <;>
    rcases hC : s.CCS with _ | ⟨m, sd, cu, vi⟩ <;> (try cases cu) <;>
    simp [emit, Outcome.bind, Outcome.world, List.count_append, List.count_cons,
      hC, Ne.symm h1, Ne.symm h2, Ne.symm h3, Ne.symm h4]

theorem forwardEvent_returned (ev : SDL_Event) (s : World) (c : CClientState)
    (hC : s.CCS = some c) (hcur : c.curh = true) :
    ∃ s', forwardEvent ev s = .returned s' ∧ s'.CCS = s.CCS ∧
      s'.SDLEventsQueue = s.SDLEventsQueue ++ [ev] := by
  unfold forwardEvent preprocess pushEvent
  cases c1 : (ev.type == SDL_SYSWMEVENT) <;> cases c2 : (ev.type == SDL_MOUSEMOTION) <;>
    cases c3 : (!headless s && (s.settings ["general", "notifications"]).asBool) <;>
    simp [emit, Outcome.bind, hC, hcur]

/-- C8: with the two listeners that `mainLoop` registers, a write that changes
`video/fullscreen` pushes exactly one `FULLSCREEN_TOGGLED` user event.  On a
`FULLSCREEN_TOGGLED` user event and on a window-restored event `handleEvent` locks pim, calls
onScreenResize once, unlocks pim, returns and changes nothing else.  On every other event
`handleEvent` does not call onScreenResize. -/
theorem onScreenResize_under_pim (askDefault : Bool) (env : Env) (ev : SDL_Event) (s : World) :
    (∀ v, s.listeners = [] → s.settings ["video", "fullscreen"] ≠ v →
      (writeSetting ["video", "fullscreen"] v (mainLoop askDefault [] s).world).trace =
        (mainLoop askDefault [] s).world.trace ++ [.pushUserEvent .FULLSCREEN_TOGGLED]) ∧
    (isResize ev = true →
      handleEvent askDefault env ev s =
        .returned { s with trace := s.trace ++ [.pimLock, .onScreenResize, .pimUnlock] }) ∧
    (isResize ev = false →
      (handleEvent askDefault env ev s).world.trace.count .onScreenResize =
        s.trace.count .onScreenResize) := by
  refine ⟨?_, ?_, ?_⟩
  · intro v hl hne
    simp [mainLoop, runFrames, Outcome.world, emit, writeSetting, notify, setNode, hl, hne,
      listens]
  · intro hr
    simp only [isResize, Bool.or_eq_true, Bool.and_eq_true, beq_iff_eq] at hr
    rcases hr with ⟨ht, hc⟩ | ⟨ht, hw⟩
    · simp [handleEvent, isQuitKey, ht, hc, handleUserEvent, emit, SDL_USEREVENT, SDL_QUIT,
        SDL_KEYDOWN]
    · simp [handleEvent, isQuitKey, ht, hw, handleWindowEvent, emit, SDL_USEREVENT, SDL_QUIT,
        SDL_KEYDOWN, SDL_WINDOWEVENT]
  · intro hr
    unfold handleEvent
    split
    · exact handleQuit_count env askDefault s _ (by decide) (by decide) (by decide)
    · split
      · simp only [Outcome.world, writeSetting, notify, setNode]
        split
        · rfl
        · rw [List.count_append, count_map_const_ne _ _ _ (by decide)]
          rfl
      · split
        · rename_i ht
          have ht' : ev.type = SDL_USEREVENT := by simpa using ht
          have hc : ev.code ≠ .FULLSCREEN_TOGGLED := by
            intro hc
            simp [isResize, ht', hc] at hr
          unfold handleUserEvent
          cases hcode : ev.code with
          | FORCE_QUIT =>
            exact handleQuit_count env false s _ (by decide) (by decide) (by decide)
          | FULLSCREEN_TOGGLED => exact absurd hcode hc
          | CAMPAIGN_START_SCENARIO =>
            simp only []
            split <;> simp [Outcome.world, emit, finisher, List.count_append]
            split <;> simp [List.count_append]
          | _ => simp [Outcome.world, emit, finisher, List.count_append]
        · split
          · rename_i hu ht
            have ht' : ev.type = SDL_WINDOWEVENT := by simpa using ht
            have hw : ¬ ev.windowEvent = SDL_WINDOWEVENT_RESTORED := by
              intro hw
              simp [isResize, ht', hw] at hr
            simp [handleWindowEvent, hw, Outcome.world]
          · exact forwardEvent_world ev s _ (by decide) (by simp) (by decide) (by decide)

/-- Witness of C8 on the sample session: the listener fires once, and a `FULLSCREEN_TOGGLED`
user event resizes under pim. -/
theorem onScreenResize_under_pim_witness :
    (writeSetting ["video", "fullscreen"] (.bool true)
        (mainLoop true [] { guiWorld with listeners := [] }).world).trace =
      (mainLoop true [] { guiWorld with listeners := [] }).world.trace ++
        [.pushUserEvent .FULLSCREEN_TOGGLED] ∧
    handleEvent true inGame (userEvent .FULLSCREEN_TOGGLED) guiWorld =
      .returned { guiWorld with
        trace := guiWorld.trace ++ [.pimLock, .onScreenResize, .pimUnlock] } ∧
    (handleEvent true inGame (plainEvent SDL_MOUSEMOTION) guiWorld).world.trace.count
        .onScreenResize = guiWorld.trace.count .onScreenResize :=
  ⟨(onScreenResize_under_pim true inGame (plainEvent 0)
      { guiWorld with listeners := [] }).1 _ rfl (by decide),
   (onScreenResize_under_pim true inGame (userEvent .FULLSCREEN_TOGGLED) guiWorld).2.1 rfl,
   (onScreenResize_under_pim true inGame (plainEvent SDL_MOUSEMOTION) guiWorld).2.2 rfl⟩

/-! ### C7 -/

theorem handleEvent_nonquit (askDefault : Bool) (env : Env) (ev : SDL_Event) (s : World)
    (c : CClientState) (hq : isQuitEvent ev = false) (hC : s.CCS = some c)
    (hcur : c.curh = true) :
    ∃ s', handleEvent askDefault env ev s = .returned s' ∧ s'.CCS = s.CCS ∧
      s'.SDLEventsQueue = s.SDLEventsQueue ++ (if isPushed ev then [ev] else []) := by
  simp only [isQuitEvent, Bool.or_eq_false_iff] at hq
  obtain ⟨hk, hf⟩ := hq
  unfold handleEvent
  rw [if_neg (by simp [hk])]
  by_cases h4 : (ev.type == SDL_KEYDOWN && ev.sym == SDLK_F4) = true
  · rw [if_pos h4]
    refine ⟨_, rfl, ?_, ?_⟩
    · unfold writeSetting; split <;> rfl
    · have : isPushed ev = false := by simp [isPushed, h4]
      rw [this]
      unfold writeSetting; split <;> simp [notify, setNode]
  · rw [if_neg h4]
    by_cases hu : (ev.type == SDL_USEREVENT) = true
    · rw [if_pos hu]
      have hu' : ev.type = SDL_USEREVENT := by simpa using hu
      have hp : isPushed ev = false := by simp [isPushed, hu']
      have hcode : ev.code ≠ .FORCE_QUIT := by
        intro hc
        simp [hu, hc] at hf
      rw [hp]
      unfold handleUserEvent
      cases hcode' : ev.code with
      | FORCE_QUIT => exact absurd hcode' hcode
      | CAMPAIGN_START_SCENARIO =>
        simp only []
        split
        · exact ⟨_, rfl, by simp [emit], by simp [emit]⟩
        · refine ⟨_, rfl, ?_, ?_⟩ <;> unfold finisher <;> split <;> simp [emit]
      | _ => exact ⟨_, rfl, by simp [emit], by simp [emit]⟩
    · rw [if_neg hu]
      by_cases hw : (ev.type == SDL_WINDOWEVENT) = true
      · rw [if_pos hw]
        have hw' : ev.type = SDL_WINDOWEVENT := by simpa using hw
        have hp : isPushed ev = false := by simp [isPushed, hw']
        rw [hp]
        unfold handleWindowEvent
        split
        · exact ⟨_, rfl, by simp [emit], by simp [emit]⟩
        · exact ⟨_, rfl, rfl, by simp⟩
      · rw [if_neg hw]
        have hp : isPushed ev = true := by
          simp only [isPushed, Bool.and_eq_true, Bool.not_eq_true', bne_iff_ne, ne_eq]
          refine ⟨⟨by simpa using h4, by simpa using hu⟩, by simpa using hw⟩
        rw [hp]
        exact forwardEvent_returned ev s c hC hcur

/-- C7: when the cursor handler is in place, every sequence of non-quit events handed one by
one to `handleEvent` is handled to the end, and the final `SDLEventsQueue` is the starting
queue followed, in arrival order and once each, by the events of the sequence that are
neither a key-down of F4, nor a user event, nor a window event. -/
theorem queue_fifo (askDefault : Bool) (evs : List (Env × SDL_Event)) (s : World)
    (c : CClientState) (hq : ∀ p ∈ evs, isQuitEvent p.2 = false) (hC : s.CCS = some c)
    (hcur : c.curh = true) :
    ∃ s', runEvents askDefault evs s = .returned s' ∧
      s'.SDLEventsQueue = s.SDLEventsQueue ++ (evs.map Prod.snd).filter isPushed := by
  induction evs generalizing s with
  | nil => exact ⟨s, rfl, by simp⟩
  | cons p rest ih =>
    obtain ⟨env, ev⟩ := p
    have hq1 : isQuitEvent ev = false := hq (env, ev) (List.mem_cons_self _ _)
    obtain ⟨s1, h1, hC1, hQ1⟩ := handleEvent_nonquit askDefault env ev s c hq1 hC hcur
    obtain ⟨s2, h2, hQ2⟩ := ih s1 (fun p hp => hq p (List.mem_cons_of_mem _ hp)) (hC1.trans hC)
    refine ⟨s2, ?_, ?_⟩
    · simp only [runEvents, h1]
      exact h2
    · rw [hQ2, hQ1]
      by_cases hp : isPushed ev = true <;> simp [List.filter_cons, hp]

/-- Witness of C7: a mouse motion, F4, a window event, a key-down of another key. -/
theorem queue_fifo_witness :
    ∃ s', runEvents true
        [(inMenu, plainEvent SDL_MOUSEMOTION), (inMenu, f4Down 0),
         (inMenu, plainEvent SDL_WINDOWEVENT), (inMenu, plainEvent SDL_KEYDOWN)] guiWorld =
          .returned s' ∧
      s'.SDLEventsQueue = guiWorld.SDLEventsQueue ++
        ([(inMenu, plainEvent SDL_MOUSEMOTION), (inMenu, f4Down 0),
          (inMenu, plainEvent SDL_WINDOWEVENT), (inMenu, plainEvent SDL_KEYDOWN)].map
            Prod.snd).filter isPushed :=
  queue_fifo true _ guiWorld { musich := true, soundh := true, curh := true, videoh := true }
    (by decide) rfl rfl

/-! ### C4 -/

theorem runEvents_append (askDefault : Bool) (pre rest : List (Env × SDL_Event)) (s s1 : World)
    (h : runEvents askDefault pre s = .returned s1) :
    runEvents askDefault (pre ++ rest) s = runEvents askDefault rest s1 := by
  induction pre generalizing s with
  | nil =>
    simp only [runEvents, Outcome.returned.injEq] at h
    subst h
    rfl
  | cons p pre ih =>
    obtain ⟨env, ev⟩ := p
    simp only [runEvents, List.cons_append] at h ⊢
    cases ho : handleEvent askDefault env ev s with
    | returned s2 =>
      rw [ho] at h
      simp only []
      exact ih s2 h
    | exited code s2 => rw [ho] at h; cases h
    | crashed s2 => rw [ho] at h; cases h

theorem handleEvent_quit (askDefault : Bool) (env : Env) (ev : SDL_Event) (s : World)
    (hq : isQuitEvent ev = true) :
    handleEvent askDefault env ev s = handleQuit env (quitAsk askDefault ev) s := by
  by_cases hk : isQuitKey ev = true
  · simp [handleEvent, quitAsk, hk]
  · have hk' : isQuitKey ev = false := by simpa using hk
    simp only [isQuitEvent, hk', Bool.false_or, Bool.and_eq_true, beq_iff_eq] at hq
    obtain ⟨ht, hc⟩ := hq
    simp [handleEvent, quitAsk, hk', ht, hc, handleUserEvent, SDL_USEREVENT, SDL_KEYDOWN]

/-- C4, as stated, fails: in one iteration F4, a mouse motion and then `SDL_QUIT` are polled;
before the quit is acted on, `video/fullscreen` has been changed, the listener has pushed its
user event, the cursor has moved and the mouse event has been queued. -/
theorem quit_does_not_preempt :
    isQuitEvent (plainEvent SDL_QUIT) = true ∧
    guiWorld.settings ["video", "fullscreen"] = .null ∧
    (runEvents true
        [(inMenu, f4Down 0), (inMenu, plainEvent SDL_MOUSEMOTION), (inMenu, plainEvent SDL_QUIT)]
        guiWorld).world.settings ["video", "fullscreen"] = .bool true ∧
    (runEvents true
        [(inMenu, f4Down 0), (inMenu, plainEvent SDL_MOUSEMOTION), (inMenu, plainEvent SDL_QUIT)]
        guiWorld).world.SDLEventsQueue = [plainEvent SDL_MOUSEMOTION] ∧
    (runEvents true
        [(inMenu, f4Down 0), (inMenu, plainEvent SDL_MOUSEMOTION), (inMenu, plainEvent SDL_QUIT)]
        guiWorld).world.trace =
      [.pushUserEvent .FULLSCREEN_TOGGLED, .cursorMove 0 0, .eventsMLock, .eventsMUnlock,
       .listIntClear, .objsToBlitClear, .CMMReset,
       .musichRelease, .soundhRelease, .clearPointer .CCS,
       .messageDispose, .clearPointer .graphics, .clearPointer .VLC, .clearPointer .console,
       .sleep 750, .screenHandlerClose, .logConfigDeconfigure, .logConfigDelete,
       .cout "Ending...\n"] := by
  decide

/-- C4 amended: in one iteration of `mainLoop` the polled events are handled one at a time in
arrival order, and `handleEvent` tests each of them for quit first.  The events polled before
a quit event take their effects first; when the quit event then leads to `quitApplication`
(no confirmation dialog is due), the run ends as `quitApplication` ends from the state those
earlier events have produced, and no later event of the sequence has any effect. -/
theorem runEvents_quit_in_order (askDefault : Bool) (pre post : List (Env × SDL_Event))
    (env : Env) (q : SDL_Event) (s s1 : World)
    (hq : isQuitEvent q = true)
    (hpre : runEvents askDefault pre s = .returned s1)
    (hnd : (env.client && env.LOCPLINT && quitAsk askDefault q) = false) :
    runEvents askDefault (pre ++ (env, q) :: post) s = quitApplication env s1 := by
  rw [runEvents_append askDefault pre _ s s1 hpre]
  simp only [runEvents, handleEvent_quit askDefault env q s1 hq]
  have hh : handleQuit env (quitAsk askDefault q) s1 = quitApplication env s1 := by
    unfold handleQuit
    rw [if_neg (by simp [hnd])]
  rw [hh]
  cases ho : quitApplication env s1 with
  | returned s2 => exact absurd ho (quitApplication_not_returned env s1 s2)
  | exited code s2 => rfl
  | crashed s2 => rfl

/-- Witness of the amended C4: F4 and a mouse motion come before `SDL_QUIT`, a key-down
after it. -/
theorem runEvents_quit_in_order_witness :
    runEvents true
        ([(inMenu, f4Down 0), (inMenu, plainEvent SDL_MOUSEMOTION)] ++
          (inMenu, plainEvent SDL_QUIT) :: [(inMenu, plainEvent SDL_KEYDOWN)]) guiWorld =
      quitApplication inMenu
        (runEvents true [(inMenu, f4Down 0), (inMenu, plainEvent SDL_MOUSEMOTION)]
          guiWorld).world :=
  runEvents_quit_in_order true [(inMenu, f4Down 0), (inMenu, plainEvent SDL_MOUSEMOTION)]
    [(inMenu, plainEvent SDL_KEYDOWN)] inMenu (plainEvent SDL_QUIT) guiWorld _ rfl rfl rfl

/-! ### C9 -/

theorem writeSetting_at (p : Path) (v : JsonNode) (s : World) :
    (writeSetting p v s).settings p = v := by
  unfold writeSetting
  split
  · assumption
  · simp [notify, setNode, SettingsTree.write]

theorem writeSetting_other (p q : Path) (v : JsonNode) (s : World) (h : q ≠ p) :
    (writeSetting p v s).settings q = s.settings q := by
  unfold writeSetting
  split
  · rfl
  · simp [notify, setNode, SettingsTree.write, h]

/-- C9: each of `setSettingBool`, `setSettingInteger` and `setSettingString` leaves at the
path of its key the command-line value when the option is given (true for a flag), the
persisted node when the option is absent and that node is not null, and the default (false,
the given integer, the given string) when the option is absent and the node is null; the node
at every other path is the one from before. -/
theorem setSetting_helpers (split : String → String → Path) (vm : VariablesMap)
    (key arg : String) (s : World) :
    ((vm.count arg = true →
        (setSettingBool split vm key arg s).settings (split key "/") = .bool true) ∧
      (vm.count arg = false → (s.settings (split key "/")).isNull = false →
        (setSettingBool split vm key arg s).settings (split key "/") =
          s.settings (split key "/")) ∧
      (vm.count arg = false → (s.settings (split key "/")).isNull = true →
        (setSettingBool split vm key arg s).settings (split key "/") = .bool false) ∧
      (∀ q, q ≠ split key "/" →
        (setSettingBool split vm key arg s).settings q = s.settings q)) ∧
    (∀ d : Int,
      (∀ v, vm.count arg = true → vm.asSi64 arg = some v →
        ∃ s', setSettingInteger split vm key arg d s = .returned s' ∧
          s'.settings (split key "/") = .integer v) ∧
      (vm.count arg = false → (s.settings (split key "/")).isNull = false →
        ∃ s', setSettingInteger split vm key arg d s = .returned s' ∧
          s'.settings (split key "/") = s.settings (split key "/")) ∧
      (vm.count arg = false → (s.settings (split key "/")).isNull = true →
        ∃ s', setSettingInteger split vm key arg d s = .returned s' ∧
          s'.settings (split key "/") = .integer d) ∧
      (∀ q, q ≠ split key "/" →
        (setSettingInteger split vm key arg d s).world.settings q = s.settings q)) ∧
    (∀ d : String,
      (∀ v, vm.count arg = true → vm.asText arg = some v →
        ∃ s', setSettingString split vm key arg d s = .returned s' ∧
          s'.settings (split key "/") = .string v) ∧
      (vm.count arg = false → (s.settings (split key "/")).isNull = false →
        ∃ s', setSettingString split vm key arg d s = .returned s' ∧
          s'.settings (split key "/") = s.settings (split key "/")) ∧
      (vm.count arg = false → (s.settings (split key "/")).isNull = true →
        ∃ s', setSettingString split vm key arg d s = .returned s' ∧
          s'.settings (split key "/") = .string d) ∧
      (∀ q, q ≠ split key "/" →
        (setSettingString split vm key arg d s).world.settings q = s.settings q)) := by
  refine ⟨⟨?_, ?_, ?_, ?_⟩, fun d => ⟨?_, ?_, ?_, ?_⟩, fun d => ⟨?_, ?_, ?_, ?_⟩⟩
  · intro hc
    simp [setSettingBool, hc, writeSetting_at]
  · intro hc hn
    simp [setSettingBool, hc, hn]
  · intro hc hn
    simp [setSettingBool, hc, hn, writeSetting_at]
  · intro q hq
    unfold setSettingBool
    simp only []
    split
    · exact writeSetting_other _ _ _ _ hq
    · split
      · exact writeSetting_other _ _ _ _ hq
      · rfl
  · intro v hc hv
    exact ⟨writeSetting (split key "/") (.integer v) s, by simp [setSettingInteger, hc, hv],
      writeSetting_at _ _ _⟩
  · intro hc hn
    exact ⟨s, by simp [setSettingInteger, hc, hn], rfl⟩
  · intro hc hn
    exact ⟨writeSetting (split key "/") (.integer d) s, by simp [setSettingInteger, hc, hn],
      writeSetting_at _ _ _⟩
  · intro q hq
    unfold setSettingInteger
    simp only []
    split
    · split
      · exact writeSetting_other _ _ _ _ hq
      · rfl
    · split
      · exact writeSetting_other _ _ _ _ hq
      · rfl
  · intro v hc hv
    exact ⟨writeSetting (split key "/") (.string v) s, by simp [setSettingString, hc, hv],
      writeSetting_at _ _ _⟩
  · intro hc hn
    exact ⟨s, by simp [setSettingString, hc, hn], rfl⟩
  · intro hc hn
    exact ⟨writeSetting (split key "/") (.string d) s, by simp [setSettingString, hc, hn],
      writeSetting_at _ _ _⟩
  · intro q hq
    unfold setSettingString
    simp only []
    split
    · split
      · exact writeSetting_other _ _ _ _ hq
      · rfl
    · split
      · exact writeSetting_other _ _ _ _ hq
      · rfl

/-- Witness of C9: a flag that is given, a port that is given, a save frequency that is
absent and null. -/
theorem setSetting_helpers_witness :
    (setSettingBool (fun k sep => k.splitOn sep) sampleOptions "session/onlyai" "onlyAI"
        processStart).settings ("session/onlyai".splitOn "/") = .bool true ∧
    (∃ s', setSettingInteger (fun k sep => k.splitOn sep) sampleOptions "session/serverport"
        "serverport" 0 processStart = .returned s' ∧
      s'.settings ("session/serverport".splitOn "/") = .integer 3030) ∧
    (∃ s', setSettingInteger (fun k sep => k.splitOn sep) sampleOptions "general/saveFrequency"
        "savefrequency" 1 processStart = .returned s' ∧
      s'.settings ("general/saveFrequency".splitOn "/") = .integer 1) ∧
    (∃ s', setSettingString (fun k sep => k.splitOn sep) sampleOptions "session/saveprefix"
        "saveprefix" "" processStart = .returned s' ∧
      s'.settings ("session/saveprefix".splitOn "/") = .string "test") :=
  ⟨(setSetting_helpers (fun k sep => k.splitOn sep) sampleOptions "session/onlyai" "onlyAI"
      processStart).1.1 (by decide),
   ((setSetting_helpers (fun k sep => k.splitOn sep) sampleOptions "session/serverport"
      "serverport" processStart).2.1 0).1 3030 (by decide) (by decide),
   ((setSetting_helpers (fun k sep => k.splitOn sep) sampleOptions "general/saveFrequency"
      "savefrequency" processStart).2.1 1).2.2.1 (by decide) rfl,
   ((setSetting_helpers (fun k sep => k.splitOn sep) sampleOptions "session/saveprefix"
      "saveprefix" processStart).2.2 "").1 "test" (by decide) (by decide)⟩

/-! ### Exit codes and subsystem creations -/

theorem exitsOnlyZero_returned (s : World) : (Outcome.returned s).exitsOnlyZero := by
  intro code h; cases h

theorem exitsOnlyZero_crashed (s : World) : (Outcome.crashed s).exitsOnlyZero := by
  intro code h; cases h

theorem exitsOnlyZero_bind (o : Outcome) (f : World → Outcome) (ho : o.exitsOnlyZero)
    (hf : ∀ s, (f s).exitsOnlyZero) : (o.bind f).exitsOnlyZero := by
  cases o with
  | returned s => exact hf s
  | exited c s => exact ho
  | crashed s => exact ho

theorem quitApplication_exitsOnlyZero (env : Env) (s : World) :
    (quitApplication env s).exitsOnlyZero := by
  intro code h
  cases ho : quitApplication env s with
  | returned s' => rw [ho] at h; cases h
  | crashed s' => rw [ho] at h; cases h
  | exited c s' =>
    rw [ho] at h
    simp only [Outcome.exitCode, Option.some.injEq] at h
    subst h
    exact quitApplication_not_exit_one env s s' c ho

theorem handleQuit_exitsOnlyZero (env : Env) (ask : Bool) (s : World) :
    (handleQuit env ask s).exitsOnlyZero := by
  unfold handleQuit
  split
  · split
    · exact exitsOnlyZero_crashed _
    · split
      · exact exitsOnlyZero_returned _
      · exact exitsOnlyZero_crashed _
  · exact quitApplication_exitsOnlyZero env s

theorem forwardEvent_exitsOnlyZero (ev : SDL_Event) (s : World) :
    (forwardEvent ev s).exitsOnlyZero := by
  unfold forwardEvent
  apply exitsOnlyZero_bind
  · unfold preprocess
    split
    · split
      · exact exitsOnlyZero_crashed _
      · split
        · exact exitsOnlyZero_returned _
        · exact exitsOnlyZero_crashed _
    · exact exitsOnlyZero_returned _
  · intro s'; exact exitsOnlyZero_returned _

theorem handleEvent_exitsOnlyZero (askDefault : Bool) (env : Env) (ev : SDL_Event) (s : World) :
    (handleEvent askDefault env ev s).exitsOnlyZero := by
  unfold handleEvent
  split
  · exact handleQuit_exitsOnlyZero env askDefault s
  · split
    · exact exitsOnlyZero_returned _
    · split
      · unfold handleUserEvent
        split
        · exact handleQuit_exitsOnlyZero env false s
        · exact exitsOnlyZero_returned _
        · exact exitsOnlyZero_returned _
        · simp only []
          split <;> exact exitsOnlyZero_returned _
        · exact exitsOnlyZero_returned _
        · exact exitsOnlyZero_returned _
        · exact exitsOnlyZero_returned _
      · split
        · unfold handleWindowEvent
          split <;> exact exitsOnlyZero_returned _
        · exact forwardEvent_exitsOnlyZero ev s

theorem runEvents_exitsOnlyZero (askDefault : Bool) (evs : List (Env × SDL_Event)) (s : World) :
    (runEvents askDefault evs s).exitsOnlyZero := by
  induction evs generalizing s with
  | nil => exact exitsOnlyZero_returned s
  | cons p rest ih =>
    obtain ⟨env, ev⟩ := p
    have h := handleEvent_exitsOnlyZero askDefault env ev s
    simp only [runEvents]
    cases ho : handleEvent askDefault env ev s with
    | returned s' => exact ih s'
    | exited c s' => rw [ho] at h; exact h
    | crashed s' => exact exitsOnlyZero_crashed _

theorem runFrames_exitsOnlyZero (askDefault : Bool) (frames : List (List (Env × SDL_Event)))
    (s : World) : (runFrames askDefault frames s).exitsOnlyZero := by
  induction frames generalizing s with
  | nil => exact exitsOnlyZero_returned s
  | cons polled rest ih =>
    have h : (mainLoopIteration askDefault polled s).exitsOnlyZero := by
      unfold mainLoopIteration
      exact exitsOnlyZero_bind _ _ (runEvents_exitsOnlyZero askDefault polled s)
        (fun s' => exitsOnlyZero_returned _)
    simp only [runFrames]
    cases ho : mainLoopIteration askDefault polled s with
    | returned s' => exact ih s'
    | exited c s' => rw [ho] at h; exact h
    | crashed s' => exact exitsOnlyZero_crashed _

theorem mainLoop_exitsOnlyZero (askDefault : Bool) (frames : List (List (Env × SDL_Event)))
    (s : World) : (mainLoop askDefault frames s).exitsOnlyZero := by
  unfold mainLoop
  exact runFrames_exitsOnlyZero _ _ _

theorem loadAndIntro_exitsOnlyZero (r : Run) (s : World) :
    (loadAndIntro r s).exitsOnlyZero := by
  unfold loadAndIntro playIntro
  repeat' first
    | exact exitsOnlyZero_returned _
    | exact exitsOnlyZero_crashed _
    | apply exitsOnlyZero_bind
    | split
    | dsimp only []
    | intro (_ : World)

theorem createMenu_exitsOnlyZero (vm : VariablesMap) (s : World) :
    (createMenu vm s).1.exitsOnlyZero := by
  unfold createMenu
  repeat' first
    | exact exitsOnlyZero_returned _
    | exact exitsOnlyZero_crashed _
    | split

theorem lobbyHost_exitsOnlyZero (vm : VariablesMap) (s : World) :
    (lobbyHost vm s).exitsOnlyZero := by
  unfold lobbyHost
  repeat' first
    | exact exitsOnlyZero_returned _
    | exact exitsOnlyZero_crashed _
    | split

theorem startLobby_exitsOnlyZero (vm : VariablesMap) (mmenu : Bool) (s : World) :
    (startLobby vm mmenu s).exitsOnlyZero := by
  unfold startLobby
  repeat' first
    | exact exitsOnlyZero_returned _
    | exact exitsOnlyZero_crashed _
    | exact lobbyHost_exitsOnlyZero _ _
    | apply exitsOnlyZero_bind
    | split
    | dsimp only []
    | intro (_ : World)

theorem runClient_exitsOnlyZero (r : Run) (s : World) : (runClient r s).exitsOnlyZero := by
  unfold runClient
  repeat' first
    | exact exitsOnlyZero_returned _
    | exact loadAndIntro_exitsOnlyZero _ _
    | exact createMenu_exitsOnlyZero _ _
    | exact startLobby_exitsOnlyZero _ _ _
    | exact mainLoop_exitsOnlyZero _ _ _
    | apply exitsOnlyZero_bind
    | split
    | dsimp only []
    | intro (_ : World)

theorem sameCreations_refl (s : World) : sameCreations s s := fun _ _ => rfl

theorem sameCreations_trans (a b c : World) (h1 : sameCreations a b) (h2 : sameCreations b c) :
    sameCreations a c := fun e he => (h2 e he).trans (h1 e he)

theorem sameCreations_of_trace (s s' : World) (h : s'.trace = s.trace) : sameCreations s s' :=
  fun _ _ => by rw [h]

theorem sameCreations_emit (e : Effect) (s : World) (h : e ∉ subsystemCreations) :
    sameCreations s (emit e s) := by
  intro x hx
  have hne : e ≠ x := fun heq => h (heq ▸ hx)
  simp [emit, List.count_append, List.count_cons, hne]

theorem sameCreations_writeSetting (p : Path) (v : JsonNode) (s : World) :
    sameCreations s (writeSetting p v s) := by
  intro x hx
  unfold writeSetting
  split
  · rfl
  · have hne : Effect.pushUserEvent EUserEvent.FULLSCREEN_TOGGLED ≠ x := by
      intro heq; subst heq; revert hx; decide
    simp only [notify, setNode]
    rw [List.count_append, count_map_const_ne _ _ _ hne]
    rfl

theorem sameCreations_setSettingBool (split : String → String → Path) (vm : VariablesMap)
    (key arg : String) (s : World) : sameCreations s (setSettingBool split vm key arg s) := by
  unfold setSettingBool
  simp only []
  split
  · exact sameCreations_writeSetting _ _ _
  · split
    · exact sameCreations_writeSetting _ _ _
    · exact sameCreations_refl _

theorem count_si64 (vm : VariablesMap) (name : String) (h : declared name = some .si64) :
    vm.count name = (vm.asSi64 name).isSome := by
  simp [VariablesMap.count, VariablesMap.asSi64, h]

theorem count_text (vm : VariablesMap) (name : String) (h : declared name = some .text) :
    vm.count name = (vm.asText name).isSome := by
  simp [VariablesMap.count, VariablesMap.asText, h]

theorem count_int (vm : VariablesMap) (name : String) (h : declared name = some .int) :
    vm.count name = (vm.asInt name).isSome := by
  simp [VariablesMap.count, VariablesMap.asInt, h]

theorem setSettingInteger_returns (split : String → String → Path) (vm : VariablesMap)
    (key arg : String) (d : Int) (s : World) (h : declared arg = some .si64) :
    ∃ s', setSettingInteger split vm key arg d s = .returned s' ∧ sameCreations s s' := by
  unfold setSettingInteger
  simp only [count_si64 vm arg h]
  cases hv : vm.asSi64 arg with
  | some v =>
    exact ⟨writeSetting (split key "/") (.integer v) s, by simp,
      sameCreations_writeSetting _ _ _⟩
  | none =>
    simp only [Option.isSome_none, Bool.false_eq_true, if_false]
    split
    · exact ⟨_, rfl, sameCreations_writeSetting _ _ _⟩
    · exact ⟨_, rfl, sameCreations_refl _⟩

theorem setSettingString_returns (split : String → String → Path) (vm : VariablesMap)
    (key arg : String) (d : String) (s : World) (h : declared arg = some .text) :
    ∃ s', setSettingString split vm key arg d s = .returned s' ∧ sameCreations s s' := by
  unfold setSettingString
  simp only [count_text vm arg h]
  cases hv : vm.asText arg with
  | some v =>
    exact ⟨writeSetting (split key "/") (.string v) s, by simp,
      sameCreations_writeSetting _ _ _⟩
  | none =>
    simp only [Option.isSome_none, Bool.false_eq_true, if_false]
    split
    · exact ⟨_, rfl, sameCreations_writeSetting _ _ _⟩
    · exact ⟨_, rfl, sameCreations_refl _⟩

theorem sessionModes_returns (vm : VariablesMap) (s : World) :
    ∃ s', sessionModes vm s = .returned s' ∧ sameCreations s s' := by
  unfold sessionModes
  split
  · exact ⟨_, rfl, sameCreations_of_trace _ _ rfl⟩
  · split
    · simp only [count_int vm "spectate-hero-speed" (by decide),
        count_int vm "spectate-battle-speed" (by decide)]
      cases h1 : vm.asInt "spectate-hero-speed" <;> cases h2 : vm.asInt "spectate-battle-speed" <;>
        simp only [Option.isSome_some, Option.isSome_none, if_true, if_false,
          Bool.false_eq_true, Outcome.bind] <;>
        exact ⟨_, rfl, sameCreations_of_trace _ _ rfl⟩
    · exact ⟨_, rfl, sameCreations_refl _⟩

theorem sessionSettings_returns (split : String → String → Path) (vm : VariablesMap)
    (s : World) :
    ∃ s', sessionSettings split vm s = .returned s' ∧ sameCreations s s' := by
  unfold sessionSettings
  have h0 := sameCreations_setSettingBool split vm "session/onlyai" "onlyAI" s
  obtain ⟨s1, e1, h1⟩ := sessionModes_returns vm
    (setSettingBool split vm "session/onlyai" "onlyAI" s)
  have h2 := sameCreations_setSettingBool split vm "session/donotstartserver"
    "donotstartserver" s1
  have h3 := sameCreations_setSettingBool split vm "session/disable-shm" "disable-shm"
    (setSettingBool split vm "session/donotstartserver" "donotstartserver" s1)
  have h4 := sameCreations_setSettingBool split vm "session/enable-shm-uuid" "enable-shm-uuid"
    (setSettingBool split vm "session/disable-shm" "disable-shm"
      (setSettingBool split vm "session/donotstartserver" "donotstartserver" s1))
  obtain ⟨s5, e5, h5⟩ := setSettingInteger_returns split vm "session/serverport" "serverport" 0
    (setSettingBool split vm "session/enable-shm-uuid" "enable-shm-uuid"
      (setSettingBool split vm "session/disable-shm" "disable-shm"
        (setSettingBool split vm "session/donotstartserver" "donotstartserver" s1)))
    (by decide)
  obtain ⟨s6, e6, h6⟩ := setSettingString_returns split vm "session/saveprefix" "saveprefix" ""
    s5 (by decide)
  obtain ⟨s7, e7, h7⟩ := setSettingInteger_returns split vm "general/saveFrequency"
    "savefrequency" 1 s6 (by decide)
  refine ⟨s7, ?_, ?_⟩
  · simp only [e1, Outcome.bind, e5, e6, e7]
  · exact sameCreations_trans _ _ _ (sameCreations_trans _ _ _ (sameCreations_trans _ _ _
      (sameCreations_trans _ _ _ (sameCreations_trans _ _ _ (sameCreations_trans _ _ _
        (sameCreations_trans _ _ _ h0 h1) h2) h3) h4) h5) h6) h7

theorem sameCreations_startLogging (s : World) : sameCreations s (startLogging s) := by
  intro x hx
  have h1 : Effect.startup .newConsole ≠ x := by intro h; subst h; revert hx; decide
  have h2 : Effect.startup .consoleStart ≠ x := by intro h; subst h; revert hx; decide
  have h3 : Effect.startup .newLogConfig ≠ x := by intro h; subst h; revert hx; decide
  have h4 : Effect.startup .logConfigureDefault ≠ x := by intro h; subst h; revert hx; decide
  have h5 : Effect.startup .preinitDLL ≠ x := by intro h; subst h; revert hx; decide
  have h6 : ∀ m, Effect.logInfo m ≠ x := by
    intro m h; subst h
    simp [subsystemCreations] at hx
  simp [startLogging, emit, List.count_append, List.count_cons, h1, h2, h3, h4, h5, h6]

theorem sameCreations_prologue (r : Run) (s : World) :
    sameCreations s
      (match r.commandLine with
        | .failed what =>
          emit (.startup (.cerr ("Failure during parsing command-line options:\n" ++ what)))
            (emit (.cout "Starting... ") (emit (.startup .currentPath) s))
        | _ => emit (.cout "Starting... ") (emit (.startup .currentPath) s)) := by
  have h1 : sameCreations s (emit (.cout "Starting... ") (emit (.startup .currentPath) s)) :=
    sameCreations_trans _ _ _ (sameCreations_emit _ _ (by decide))
      (sameCreations_emit _ _ (by decide))
  split
  · exact sameCreations_trans _ _ _ h1 (sameCreations_emit _ _ (by simp [subsystemCreations]))
  · exact h1

/-! ### C11 -/

/-- C11, as stated, fails: in a non-headless session whose `CCS` is non-null and holds no music
handler, `quitApplication` calls through the null `musich` right after the reset of CMM; the
run ends there, without `exit(0)` and without the later steps. -/
theorem quitApplication_null_musich :
    headless silentWorld = false ∧
    silentWorld.CCS = some { musich := false, soundh := true, curh := true, videoh := true } ∧
    (quitApplication inMenu silentWorld).isCrashed = true ∧
    (quitApplication inMenu silentWorld).exitCode = none ∧
    (quitApplication inMenu silentWorld).world.trace =
      [.listIntClear, .objsToBlitClear, .CMMReset] := by
  decide

/-- C11 amended: for every combination of `CCS`, graphics, VLC, console and `logConfig` null
or non-null, headless or not, in which the music and sound handlers exist whenever they are
called through, `quitApplication` ends in `exit(0)`; the calls it has made are the steps of
the shutdown in program order without the steps of the missing subsystems, each of them a
call of the complete shutdown sequence; VLC, console and `logConfig` are null afterwards. -/
theorem quitApplication_missing_subsystems (env : Env) (s : World)
    (ha : audioReady s = true) :
    ∃ s', quitApplication env s = .exited 0 s' ∧
      s'.trace = s.trace ++ shutdownCalls env s ∧
      (shutdownCalls env s).Sublist fullShutdown ∧
      s'.VLC = false ∧ s'.console = false ∧ s'.logConfig = false := by
  rcases env with ⟨cl, lp⟩
  have key : ∀ b, (s.settings ["session", "headless"]).asBool = b →
      ∃ s', quitApplication ⟨cl, lp⟩ s = .exited 0 s' ∧
        s'.trace = s.trace ++ shutdownCalls ⟨cl, lp⟩ s ∧
        (shutdownCalls ⟨cl, lp⟩ s).Sublist fullShutdown ∧
        s'.VLC = false ∧ s'.console = false ∧ s'.logConfig = false := by
    intro b hH
    rcases hC : s.CCS with _ | ⟨m, sd, cu, vi⟩ <;> cases hl : s.logConfig <;> cases b <;>
      cases cl <;> (try cases m) <;> (try cases sd) <;>
      simp [audioReady, headless, hH, hC] at ha <;>
      simp [quitApplication, releaseClientState, quitTail, Outcome.bind, emit, headless,
        shutdownCalls, hH, hl, hC] <;>
      decide
  exact key _ rfl

/-- Witness of the amended C11: every subsystem missing, no live client; and a headless
session. -/
theorem quitApplication_missing_subsystems_witness :
    (∃ s', quitApplication inMenu bareWorld = .exited 0 s' ∧
      s'.trace = bareWorld.trace ++ shutdownCalls inMenu bareWorld ∧
      (shutdownCalls inMenu bareWorld).Sublist fullShutdown ∧
      s'.VLC = false ∧ s'.console = false ∧ s'.logConfig = false) ∧
    (∃ s', quitApplication inGame headlessWorld = .exited 0 s' ∧
      s'.trace = headlessWorld.trace ++ shutdownCalls inGame headlessWorld ∧
      (shutdownCalls inGame headlessWorld).Sublist fullShutdown ∧
      s'.VLC = false ∧ s'.console = false ∧ s'.logConfig = false) :=
  ⟨quitApplication_missing_subsystems inMenu bareWorld (by decide),
   quitApplication_missing_subsystems inGame headlessWorld (by decide)⟩

/-! ### C12 -/

/-- C12: on a user event whose code is none of the six that the switch names, `handleEvent`
logs the error Unknown user event with the code and returns; the settings, the queue
`SDLEventsQueue` and every other part of the state are unchanged and no other call is made,
so the loop of `mainLoop` goes on with the next event. -/
theorem handleEvent_unknown_user_event (askDefault : Bool) (env : Env) (ev : SDL_Event)
    (s : World) (code : Int) (rest : List (Env × SDL_Event))
    (ht : ev.type = SDL_USEREVENT) (hc : ev.code = .other code) :
    handleEvent askDefault env ev s =
        .returned { s with
          trace := s.trace ++ [.logError ("Unknown user event. Code " ++ toString code)] } ∧
      runEvents askDefault ((env, ev) :: rest) s =
        runEvents askDefault rest { s with
          trace := s.trace ++ [.logError ("Unknown user event. Code " ++ toString code)] } := by
  have h : handleEvent askDefault env ev s =
      .returned { s with
        trace := s.trace ++ [.logError ("Unknown user event. Code " ++ toString code)] } := by
    simp [handleEvent, isQuitKey, ht, hc, handleUserEvent, emit, SDL_USEREVENT, SDL_QUIT,
      SDL_KEYDOWN]
  exact ⟨h, by simp only [runEvents, h]⟩

/-- Witness of C12: a user event with code 99 in a running game. -/
theorem handleEvent_unknown_user_event_witness :
    handleEvent true inGame (userEvent (.other 99)) guiWorld =
        .returned { guiWorld with
          trace := guiWorld.trace ++
            [.logError ("Unknown user event. Code " ++ toString (99 : Int))] } ∧
      runEvents true ((inGame, userEvent (.other 99)) :: []) guiWorld =
        runEvents true [] { guiWorld with
          trace := guiWorld.trace ++
            [.logError ("Unknown user event. Code " ++ toString (99 : Int))] } :=
  handleEvent_unknown_user_event true inGame (userEvent (.other 99)) guiWorld 99 [] rfl rfl

/-! ### C14 -/

/-- C14: the continuation built for `CAMPAIGN_START_SCENARIO` pushes the main menu, pushes
its menu window and opens the campaign lobby, in this order, when `mapsRemaining` is not
empty, and neither calls anything nor changes the state when it is empty. -/
theorem finisher_effect (ourCampaign : CCampaignState) (s : World) :
    (ourCampaign.mapsRemaining ≠ [] →
      finisher ourCampaign s =
        { s with trace := s.trace ++
            [.pushInt .CMM, .pushInt .CMM_menu, .openCampaignLobby ourCampaign] }) ∧
    (ourCampaign.mapsRemaining = [] → finisher ourCampaign s = s) := by
  constructor
  · intro h
    simp [finisher, h, emit]
  · intro h
    simp [finisher, h]

/-- Witness of C14: a campaign with two maps left and a campaign with none. -/
theorem finisher_effect_witness :
    finisher { epilogHasPrologEpilog := false, mapsRemaining := [3, 4] } guiWorld =
        { guiWorld with trace := guiWorld.trace ++
            [.pushInt .CMM, .pushInt .CMM_menu,
             .openCampaignLobby { epilogHasPrologEpilog := false, mapsRemaining := [3, 4] }] } ∧
      finisher { epilogHasPrologEpilog := true, mapsRemaining := [] } guiWorld = guiWorld :=
  ⟨(finisher_effect { epilogHasPrologEpilog := false, mapsRemaining := [3, 4] } guiWorld).1
      (by decide),
   (finisher_effect { epilogHasPrologEpilog := true, mapsRemaining := [] } guiWorld).2 rfl⟩

/-! ### Continuations of a trace -/

theorem extendsBy_iff (P : Effect → Prop) (s s' : World) :
    extendsBy P s s' ↔ ∃ d, s'.trace = s.trace ++ d ∧ ∀ e ∈ d, P e := by
  constructor
  · rintro ⟨⟨d, hd⟩, h⟩
    refine ⟨d, hd.symm, ?_⟩
    rw [← hd, List.drop_left] at h
    exact h
  · rintro ⟨d, hd, h⟩
    refine ⟨⟨d, hd.symm⟩, ?_⟩
    rw [hd, List.drop_left]
    exact h

theorem extendsBy_refl (P : Effect → Prop) (s : World) : extendsBy P s s := by
  rw [extendsBy_iff]
  exact ⟨[], by simp, by simp⟩

theorem extendsBy_trans (P : Effect → Prop) (a b c : World) (h1 : extendsBy P a b)
    (h2 : extendsBy P b c) : extendsBy P a c := by
  rw [extendsBy_iff] at *
  obtain ⟨d1, e1, p1⟩ := h1
  obtain ⟨d2, e2, p2⟩ := h2
  refine ⟨d1 ++ d2, by rw [e2, e1, List.append_assoc], ?_⟩
  intro e he
  rcases List.mem_append.mp he with h | h
  · exact p1 e h
  · exact p2 e h

theorem extendsBy_mono (P Q : Effect → Prop) (s s' : World) (hPQ : ∀ e, P e → Q e)
    (h : extendsBy P s s') : extendsBy Q s s' :=
  ⟨h.1, fun e he => hPQ e (h.2 e he)⟩

theorem extendsBy_emit (P : Effect → Prop) (e : Effect) (s : World) (h : P e) :
    extendsBy P s (emit e s) := by
  rw [extendsBy_iff]
  exact ⟨[e], rfl, by simpa using h⟩

theorem extendsBy_of_trace (P : Effect → Prop) (s s' : World) (h : s'.trace = s.trace) :
    extendsBy P s s' := by
  rw [extendsBy_iff]
  exact ⟨[], by simp [h], by simp⟩

theorem extendsBy_notify (P : Effect → Prop) (p : Path) (s : World)
    (h : P (.pushUserEvent .FULLSCREEN_TOGGLED)) : extendsBy P s (notify p s) := by
  rw [extendsBy_iff]
  refine ⟨_, rfl, ?_⟩
  intro e he
  rcases List.mem_map.mp he with ⟨_, _, rfl⟩
  exact h

theorem extendsBy_writeSetting (P : Effect → Prop) (p : Path) (v : JsonNode) (s : World)
    (h : P (.pushUserEvent .FULLSCREEN_TOGGLED)) : extendsBy P s (writeSetting p v s) := by
  unfold writeSetting
  split
  · exact extendsBy_refl P s
  · exact extendsBy_trans P _ _ _ (extendsBy_of_trace P s (setNode p v s) rfl)
      (extendsBy_notify P p _ h)

theorem extendsBy_bind (P : Effect → Prop) (s : World) (o : Outcome) (f : World → Outcome)
    (h1 : extendsBy P s o.world) (h2 : ∀ s1, extendsBy P s1 (f s1).world) :
    extendsBy P s (o.bind f).world := by
  cases o with
  | returned s1 => exact extendsBy_trans P _ _ _ h1 (h2 s1)
  | exited c s1 => exact h1
  | crashed s1 => exact h1

/-! ### What the stages of `main` add to the trace -/

theorem createGraphics_extends (s : World) :
    extendsBy (fun e => e ≠ .startup .loadingJoin ∧ e ≠ .startup .mainMenuCreate) s
      (createGraphics s) := by
  unfold createGraphics
  by_cases h : headless s = true <;>
    simp [extendsBy, emit, h, headless] <;> simp [headless] at h <;> simp [h]

theorem createMenu_extends (vm : VariablesMap) (s : World) :
    extendsBy (fun e => e ≠ .startup .loadingJoin) s (createMenu vm s).1.world := by
  unfold createMenu
  dsimp only
  repeat' split
  all_goals simp [extendsBy, Outcome.world, emit, setNode]

theorem lobbyHost_extends (vm : VariablesMap) (s : World) :
    extendsBy (fun e => e ≠ .startup .loadingJoin ∧ e ≠ .startup .mainMenuCreate) s
      (lobbyHost vm s).world := by
  unfold lobbyHost
  dsimp only
  repeat' split
  all_goals simp [extendsBy, Outcome.world, emit, setNode]

theorem startLobby_extends (vm : VariablesMap) (mmenu : Bool) (s : World) :
    extendsBy (fun e => e ≠ .startup .loadingJoin ∧ e ≠ .startup .mainMenuCreate) s
      (startLobby vm mmenu s).world := by
  unfold startLobby
  dsimp only
  repeat' first
    | refine extendsBy_trans _ _ _ _ ?_ (lobbyHost_extends _ _)
    | apply extendsBy_bind
    | intro (_ : World)
    | split
  all_goals simp [extendsBy, Outcome.world, emit, setNode, notify]
  all_goals
    intro a _ _ _ ha
    subst ha
    simp

theorem fullShutdown_not_startup : ∀ e ∈ fullShutdown, e.isStartup = false := by
  decide

theorem quitApplication_extends (env : Env) (s : World) :
    extendsBy (fun e => e.isStartup = false) s (quitApplication env s).world := by
  rw [extendsBy_iff]
  exact ⟨quitEffects env s, quitApplication_trace env s,
    fun e he => fullShutdown_not_startup e (quitEffects_subset env s e he)⟩

theorem handleQuit_extends (env : Env) (ask : Bool) (s : World) :
    extendsBy (fun e => e.isStartup = false) s (handleQuit env ask s).world := by
  unfold handleQuit
  split
  · repeat' split
    all_goals simp [extendsBy, Outcome.world, emit, Effect.isStartup]
  · exact quitApplication_extends env s

theorem handleUserEvent_extends (env : Env) (ev : SDL_Event) (s : World) :
    extendsBy (fun e => e.isStartup = false) s (handleUserEvent env ev s).world := by
  unfold handleUserEvent finisher
  split
  · exact handleQuit_extends env false s
  all_goals try dsimp only
  all_goals repeat' split
  all_goals simp [extendsBy, Outcome.world, emit, Effect.isStartup]

theorem forwardEvent_extends (ev : SDL_Event) (s : World) :
    extendsBy (fun e => e.isStartup = false) s (forwardEvent ev s).world := by
  unfold forwardEvent preprocess pushEvent
  cases c1 : (ev.type == SDL_SYSWMEVENT) <;> cases c2 : (ev.type == SDL_MOUSEMOTION) <;>
    cases c3 : (!headless s && (s.settings ["general", "notifications"]).asBool) <;>
    rcases hC : s.CCS with _ | ⟨m, sd, cu, vi⟩ <;> (try cases cu) <;>
    simp [extendsBy, emit, Outcome.bind, Outcome.world, hC, Effect.isStartup]

theorem handleEvent_extends (askDefault : Bool) (env : Env) (ev : SDL_Event) (s : World) :
    extendsBy (fun e => e.isStartup = false) s (handleEvent askDefault env ev s).world := by
  unfold handleEvent
  split
  · exact handleQuit_extends env askDefault s
  · split
    · exact extendsBy_writeSetting _ _ _ _ rfl
    · split
      · exact handleUserEvent_extends env ev s
      · split
        · unfold handleWindowEvent
          split <;> simp [extendsBy, Outcome.world, emit, Effect.isStartup]
        · exact forwardEvent_extends ev s

theorem runEvents_extends (askDefault : Bool) (evs : List (Env × SDL_Event)) (s : World) :
    extendsBy (fun e => e.isStartup = false) s (runEvents askDefault evs s).world := by
  induction evs generalizing s with
  | nil => exact extendsBy_refl _ s
  | cons p rest ih =>
    obtain ⟨env, ev⟩ := p
    have h := handleEvent_extends askDefault env ev s
    simp only [runEvents]
    cases ho : handleEvent askDefault env ev s with
    | returned s1 =>
      rw [ho] at h
      exact extendsBy_trans _ _ _ _ h (ih s1)
    | exited c s1 => rw [ho] at h; exact h
    | crashed s1 => rw [ho] at h; exact h

theorem mainLoopIteration_extends (askDefault : Bool) (polled : List (Env × SDL_Event))
    (s : World) :
    extendsBy (fun e => e.isStartup = false) s (mainLoopIteration askDefault polled s).world := by
  unfold mainLoopIteration
  apply extendsBy_bind
  · exact runEvents_extends askDefault polled s
  · intro s1
    simp [extendsBy, Outcome.world, emit, Effect.isStartup]

theorem runFrames_extends (askDefault : Bool) (frames : List (List (Env × SDL_Event)))
    (s : World) :
    extendsBy (fun e => e.isStartup = false) s (runFrames askDefault frames s).world := by
  induction frames generalizing s with
  | nil => exact extendsBy_refl _ s
  | cons polled rest ih =>
    have h := mainLoopIteration_extends askDefault polled s
    simp only [runFrames]
    cases ho : mainLoopIteration askDefault polled s with
    | returned s1 =>
      rw [ho] at h
      exact extendsBy_trans _ _ _ _ h (ih s1)
    | exited c s1 => rw [ho] at h; exact h
    | crashed s1 => rw [ho] at h; exact h

theorem mainLoop_extends (askDefault : Bool) (frames : List (List (Env × SDL_Event)))
    (s : World) :
    extendsBy (fun e => e.isStartup = false) s (mainLoop askDefault frames s).world := by
  unfold mainLoop
  refine extendsBy_trans _ _ _ _ ?_ (runFrames_extends askDefault frames _)
  simp [extendsBy, emit, Effect.isStartup]

theorem headlessLoop_extends (n : Nat) (s : World) :
    extendsBy (fun e => e.isStartup = false) s (headlessLoop n s) := by
  induction n generalizing s with
  | zero => exact extendsBy_refl _ s
  | succ n ih =>
    simp only [headlessLoop]
    exact extendsBy_trans _ _ _ _ (extendsBy_emit _ (.sleep 1000) s rfl) (ih _)

theorem extendsBy_count (e : Effect) (s s' : World) (h : extendsBy (fun x => x ≠ e) s s') :
    s'.trace.count e = s.trace.count e := by
  rw [extendsBy_iff] at h
  obtain ⟨d, hd, hP⟩ := h
  have h0 : d.count e = 0 := List.count_eq_zero.mpr fun hm => hP e hm rfl
  rw [hd, List.count_append, h0]
  rfl

theorem setSettingBool_extends (P : Effect → Prop) (h : P (.pushUserEvent .FULLSCREEN_TOGGLED))
    (split : String → String → Path) (vm : VariablesMap) (key arg : String) (s : World) :
    extendsBy P s (setSettingBool split vm key arg s) := by
  unfold setSettingBool
  dsimp only
  split
  · exact extendsBy_writeSetting P _ _ _ h
  · split
    · exact extendsBy_writeSetting P _ _ _ h
    · exact extendsBy_refl P s

theorem setSettingInteger_extends (P : Effect → Prop)
    (h : P (.pushUserEvent .FULLSCREEN_TOGGLED)) (split : String → String → Path)
    (vm : VariablesMap) (key arg : String) (d : Int) (s : World) :
    extendsBy P s (setSettingInteger split vm key arg d s).world := by
  unfold setSettingInteger
  dsimp only
  split
  · split
    · exact extendsBy_writeSetting P _ _ _ h
    · exact extendsBy_refl P s
  · split
    · exact extendsBy_writeSetting P _ _ _ h
    · exact extendsBy_refl P s

theorem setSettingString_extends (P : Effect → Prop)
    (h : P (.pushUserEvent .FULLSCREEN_TOGGLED)) (split : String → String → Path)
    (vm : VariablesMap) (key arg : String) (d : String) (s : World) :
    extendsBy P s (setSettingString split vm key arg d s).world := by
  unfold setSettingString
  dsimp only
  split
  · split
    · exact extendsBy_writeSetting P _ _ _ h
    · exact extendsBy_refl P s
  · split
    · exact extendsBy_writeSetting P _ _ _ h
    · exact extendsBy_refl P s

theorem sessionModes_extends (P : Effect → Prop) (vm : VariablesMap) (s : World) :
    extendsBy P s (sessionModes vm s).world := by
  unfold sessionModes
  dsimp only
  repeat' first
    | apply extendsBy_bind
    | intro (_ : World)
    | split
  all_goals simp [extendsBy, Outcome.world, setNode]

theorem sessionSettings_extends (P : Effect → Prop)
    (h : P (.pushUserEvent .FULLSCREEN_TOGGLED)) (split : String → String → Path)
    (vm : VariablesMap) (s : World) :
    extendsBy P s (sessionSettings split vm s).world := by
  unfold sessionSettings
  dsimp only
  refine extendsBy_trans P _ _ _
    (setSettingBool_extends P h split vm "session/onlyai" "onlyAI" s) ?_
  apply extendsBy_bind
  · exact sessionModes_extends P vm _
  · intro s1
    refine extendsBy_trans P _ _ _
      (setSettingBool_extends P h split vm "session/donotstartserver" "donotstartserver" s1) ?_
    refine extendsBy_trans P _ _ _
      (setSettingBool_extends P h split vm "session/disable-shm" "disable-shm" _) ?_
    refine extendsBy_trans P _ _ _
      (setSettingBool_extends P h split vm "session/enable-shm-uuid" "enable-shm-uuid" _) ?_
    apply extendsBy_bind
    · exact setSettingInteger_extends P h split vm _ _ _ _
    · intro s2
      apply extendsBy_bind
      · exact setSettingString_extends P h split vm _ _ _ _
      · intro s3
        exact setSettingInteger_extends P h split vm _ _ _ _

theorem main_reaches_client (r : Run) (s : World)
    (hh : r.commandLine.vm.count "help" = false)
    (hv : r.commandLine.vm.count "version" = false)
    (hA : r.existsResource "DATA/HELP.TXT" = true)
    (hB : r.existsResource "MODS/VCMI/MOD.JSON" = true) :
    ∃ s1, main r s = runClient r s1 ∧ extendsBy (fun e => e ∉ barrierCalls) s s1 := by
  have hpush : Effect.pushUserEvent EUserEvent.FULLSCREEN_TOGGLED ∉ barrierCalls := by decide
  have h0 : extendsBy (fun e => e ∉ barrierCalls) s
      (match r.commandLine with
        | .failed what =>
          emit (.startup (.cerr ("Failure during parsing command-line options:\n" ++ what)))
            (emit (.cout "Starting... ") (emit (.startup .currentPath) s))
        | _ => emit (.cout "Starting... ") (emit (.startup .currentPath) s)) := by
    split <;> simp [extendsBy, emit, barrierCalls]
  have h1 : ∀ w : World, extendsBy (fun e => e ∉ barrierCalls) w (startLogging w) := by
    intro w
    simp [extendsBy, startLogging, emit, barrierCalls]
  obtain ⟨s1, e1, _⟩ := sessionSettings_returns r.split r.commandLine.vm
    (startLogging
      (match r.commandLine with
        | .failed what =>
          emit (.startup (.cerr ("Failure during parsing command-line options:\n" ++ what)))
            (emit (.cout "Starting... ") (emit (.startup .currentPath) s))
        | _ => emit (.cout "Starting... ") (emit (.startup .currentPath) s)))
  have h2 := sessionSettings_extends (fun e => e ∉ barrierCalls) hpush r.split
    r.commandLine.vm
    (startLogging
      (match r.commandLine with
        | .failed what =>
          emit (.startup (.cerr ("Failure during parsing command-line options:\n" ++ what)))
            (emit (.cout "Starting... ") (emit (.startup .currentPath) s))
        | _ => emit (.cout "Starting... ") (emit (.startup .currentPath) s)))
  rw [e1] at h2
  simp only [Outcome.world] at h2
  refine ⟨emit (.logInfo "settings = %s") (emit (.startup .logConfigure) s1), ?_, ?_⟩
  · simp [main, hh, hv, e1, Outcome.bind, testFile, hA, hB]
  · refine extendsBy_trans _ _ _ _ (extendsBy_trans _ _ _ _ (extendsBy_trans _ _ _ _ h0
      (h1 _)) h2) ?_
    simp [extendsBy, emit, barrierCalls]

theorem createSubsystems_ready (r : Run) (s : World) :
    extendsBy (fun e => e ∉ barrierCalls) s
        (createSubsystems r.commandLine.vm
          (testFile r.existsResource "SOUNDS/G1A.WAV" "campaign music"
            (testFile r.existsResource "VIDEO/GOOD1A.SMK" "campaign movies" s).2).2) ∧
      ∃ c, (createSubsystems r.commandLine.vm
          (testFile r.existsResource "SOUNDS/G1A.WAV" "campaign music"
            (testFile r.existsResource "VIDEO/GOOD1A.SMK" "campaign movies" s).2).2).CCS =
        some c ∧ c.videoh = true := by
  cases hH : (s.settings ["session", "headless"]).asBool <;>
    cases h1 : r.existsResource "VIDEO/GOOD1A.SMK" <;>
    cases h2 : r.existsResource "SOUNDS/G1A.WAV" <;>
    simp [extendsBy, createSubsystems, testFile, emit, headless, barrierCalls, hH, h1, h2]

theorem emit_settings (e : Effect) (s : World) : (emit e s).settings = s.settings := rfl

theorem emit_CCS (e : Effect) (s : World) : (emit e s).CCS = s.CCS := rfl

theorem loadAndIntro_returns (r : Run) (s : World) (c : CClientState) (hC : s.CCS = some c)
    (hv : c.videoh = true) :
    ∃ s3, loadAndIntro r s = .returned (emit (.startup .loadingJoin) s3) ∧
      extendsBy (fun e => e ∉ barrierCalls) s s3 := by
  unfold loadAndIntro playIntro
  cases h1 : r.isPointerRelativeMode <;>
    cases h2 : (s.settings ["session", "headless"]).asBool <;>
    cases h3 : (!r.commandLine.vm.count "battle" && !r.commandLine.vm.count "nointro" &&
      (s.settings ["video", "showIntro"]).asBool) <;>
    cases h4 : r.logoPlayed <;>
    simp only [headless, emit_settings, emit_CCS, h2, h3, hC, hv, Outcome.bind, Bool.not_false,
      Bool.not_true, if_true, if_false, Bool.false_eq_true] <;>
    refine ⟨_, rfl, ?_⟩ <;>
    simp [extendsBy, barrierCalls, emit]

theorem bind_returned (s : World) (f : World → Outcome) :
    (Outcome.returned s).bind f = f s := rfl

theorem count_ui16 (vm : VariablesMap) (name : String) (h : declared name = some .ui16) :
    vm.count name = (vm.asUi16 name).isSome := by
  simp [VariablesMap.count, VariablesMap.asUi16, h]

theorem runClient_after_join (r : Run) (s1 s3 : World)
    (hL : loadAndIntro r
        (createSubsystems r.commandLine.vm
          (testFile r.existsResource "SOUNDS/G1A.WAV" "campaign music"
            (testFile r.existsResource "VIDEO/GOOD1A.SMK" "campaign movies" s1).2).2) =
      .returned (emit (.startup .loadingJoin) s3)) :
    extendsBy (fun e => e ≠ .startup .loadingJoin) (emit (.startup .loadingJoin) s3)
      (runClient r s1).world := by
  have hs : ∀ e : Effect, e.isStartup = false → e ≠ .startup .loadingJoin := by
    intro e he h
    subst h
    simp [Effect.isStartup] at he
  unfold runClient
  dsimp only
  rw [hL]
  simp only [bind_returned]
  refine extendsBy_trans _ _ _ _
    (extendsBy_mono _ _ _ _ (fun e he => he.1) (createGraphics_extends _)) ?_
  apply extendsBy_bind
  · exact createMenu_extends _ _
  · intro s4
    apply extendsBy_bind
    · exact extendsBy_mono _ _ _ _ (fun e he => he.1) (startLobby_extends _ _ _)
    · intro s5
      by_cases hr : (s5.settings ["server", "reconnect"]).asBool = true
      · rw [if_pos hr]
        refine extendsBy_trans _ _ _ _
          (extendsBy_emit _ (.startup .restoreLastSession) s5 (by decide)) ?_
        split
        · exact extendsBy_mono _ _ _ _ hs (mainLoop_extends _ _ _)
        · exact extendsBy_mono _ _ _ _ hs (headlessLoop_extends _ _)
      · rw [if_neg hr]
        split
        · exact extendsBy_mono _ _ _ _ hs (mainLoop_extends _ _ _)
        · exact extendsBy_mono _ _ _ _ hs (headlessLoop_extends _ _)

/-! ### C13 -/

/-- C13: when `main` gets past the tests of the command line and of the mandatory data, its
trace holds the call `loading.join()` exactly once, and neither the construction of the main
menu, of Graphics or of the cursor handler nor a call of `GH.renderFrame` comes before it;
this holds in a non-headless session and in a headless one. -/
theorem main_join_barrier (r : Run) (s : World)
    (hh : r.commandLine.vm.count "help" = false)
    (hv : r.commandLine.vm.count "version" = false)
    (hA : r.existsResource "DATA/HELP.TXT" = true)
    (hB : r.existsResource "MODS/VCMI/MOD.JSON" = true) :
    ∃ pre post, (main r s).world.trace = s.trace ++ pre ++ .startup .loadingJoin :: post ∧
      (∀ e ∈ pre, e ∉ barrierCalls) ∧ Effect.startup .loadingJoin ∉ post := by
  obtain ⟨s1, hm, hx1⟩ := main_reaches_client r s hh hv hA hB
  obtain ⟨hx2, c, hC, hcv⟩ := createSubsystems_ready r s1
  obtain ⟨s3, hL, hx3⟩ := loadAndIntro_returns r _ c hC hcv
  have hpre := extendsBy_trans _ _ _ _ (extendsBy_trans _ _ _ _ hx1 hx2) hx3
  have hpost := runClient_after_join r s1 s3 hL
  rw [extendsBy_iff] at hpre hpost
  obtain ⟨pre, epre, ppre⟩ := hpre
  obtain ⟨post, epost, ppost⟩ := hpost
  refine ⟨pre, post, ?_, ppre, fun hmem => ppost _ hmem rfl⟩
  rw [hm, epost]
  simp [emit, epre]

/-- Witness of C13: a start without arguments with every resource in place. -/
theorem main_join_barrier_witness :
    ∃ pre post, (main (plainRun fun _ => true) processStart).world.trace =
        processStart.trace ++ pre ++ .startup .loadingJoin :: post ∧
      (∀ e ∈ pre, e ∉ barrierCalls) ∧ Effect.startup .loadingJoin ∉ post :=
  main_join_barrier (plainRun fun _ => true) processStart (by decide) (by decide) rfl rfl

/-! ### C15 -/

theorem createMenu_test (vm : VariablesMap) (s : World)
    (ht : vm.count "testmap" = true ∨ vm.count "testsave" = true) :
    ∃ sm, createMenu vm s = (.returned sm, false) ∧
      extendsBy (fun e => e ≠ .startup .mainMenuCreate) s sm := by
  have h1 := count_text vm "testmap" (by decide)
  have h2 := count_text vm "testsave" (by decide)
  unfold createMenu
  dsimp only
  cases ha : vm.asText "testmap" with
  | some file =>
    rw [ha] at h1
    simp only [h1, Option.isSome_some, if_true]
    exact ⟨_, rfl, by simp [extendsBy, emit, setNode]⟩
  | none =>
    rw [ha] at h1
    have h2' : vm.count "testsave" = true := by
      rcases ht with h | h
      · rw [h1] at h; cases h
      · exact h
    cases hb : vm.asText "testsave" with
    | none => rw [hb, h2'] at h2; cases h2
    | some file =>
      simp only [h1, h2', Option.isSome_none, Bool.false_eq_true, if_false, if_true]
      exact ⟨_, rfl, by simp [extendsBy, emit, setNode]⟩

theorem startLobby_without_menu (vm : VariablesMap) (s : World) (a u : String) (p : Nat)
    (hl : vm.count "lobby" = true) (haddr : vm.asText "lobby-address" = some a)
    (huuid : vm.asText "uuid" = some u) (hport : vm.asUi16 "lobby-port" = some p)
    (hhost : vm.count "lobby-host" = false) :
    ∃ s', startLobby vm false s = .crashed s' ∧
      s'.settings ["server", "reconnect"] = .bool false ∧
      s'.settings ["session", "lobby"] = .bool true := by
  unfold startLobby lobbyHost
  simp only [count_text vm "lobby-username" (by decide),
    count_ui16 vm "lobby-gamemode" (by decide)]
  cases hu : vm.asText "lobby-username" <;> cases hg : vm.asUi16 "lobby-gamemode" <;>
    simp [hl, haddr, huuid, hport, hhost, Outcome.bind, setNode, emit, SettingsTree.write]

theorem main_lobby_without_menu (r : Run) (s : World) (a u : String) (p : Nat)
    (hh : r.commandLine.vm.count "help" = false)
    (hv : r.commandLine.vm.count "version" = false)
    (hA : r.existsResource "DATA/HELP.TXT" = true)
    (hB : r.existsResource "MODS/VCMI/MOD.JSON" = true)
    (ht : r.commandLine.vm.count "testmap" = true ∨ r.commandLine.vm.count "testsave" = true)
    (hl : r.commandLine.vm.count "lobby" = true)
    (haddr : r.commandLine.vm.asText "lobby-address" = some a)
    (huuid : r.commandLine.vm.asText "uuid" = some u)
    (hport : r.commandLine.vm.asUi16 "lobby-port" = some p)
    (hhost : r.commandLine.vm.count "lobby-host" = false) :
    ∃ s', main r s = .crashed s' ∧
      s'.settings ["server", "reconnect"] = .bool false ∧
      s'.settings ["session", "lobby"] = .bool true ∧
      s'.trace.count (.startup .mainMenuCreate) = s.trace.count (.startup .mainMenuCreate) := by
  obtain ⟨s1, hm, hx1⟩ := main_reaches_client r s hh hv hA hB
  obtain ⟨hx2, c, hC, hcv⟩ := createSubsystems_ready r s1
  obtain ⟨s3, hL, hx3⟩ := loadAndIntro_returns r _ c hC hcv
  obtain ⟨sm, hcm, hxm⟩ := createMenu_test r.commandLine.vm
    (createGraphics (emit (.startup .loadingJoin) s3)) ht
  obtain ⟨s', hsl, hs1, hs2⟩ := startLobby_without_menu r.commandLine.vm sm a u p hl haddr
    huuid hport hhost
  have hrun : runClient r s1 = .crashed s' := by
    unfold runClient
    dsimp only
    rw [hL]
    simp only [bind_returned, hcm, hsl, Outcome.bind]
  have hbar : ∀ e : Effect, e ∉ barrierCalls → e ≠ .startup .mainMenuCreate := by
    intro e he h
    subst h
    exact he (by decide)
  have hpre := extendsBy_mono _ _ _ _ hbar
    (extendsBy_trans _ _ _ _ (extendsBy_trans _ _ _ _ hx1 hx2) hx3)
  have hj : extendsBy (fun e => e ≠ .startup .mainMenuCreate) s3
      (emit (.startup .loadingJoin) s3) := extendsBy_emit _ _ _ (by decide)
  have hg := extendsBy_mono _ (fun e => e ≠ .startup .mainMenuCreate) _ _ (fun e he => he.2)
    (createGraphics_extends (emit (.startup .loadingJoin) s3))
  have hlob := extendsBy_mono _ (fun e => e ≠ .startup .mainMenuCreate) _ _ (fun e he => he.2)
    (startLobby_extends r.commandLine.vm false sm)
  rw [hsl] at hlob
  refine ⟨s', by rw [hm, hrun], hs1, hs2, ?_⟩
  exact extendsBy_count _ _ _
    (extendsBy_trans _ _ _ _ (extendsBy_trans _ _ _ _ (extendsBy_trans _ _ _ _
      (extendsBy_trans _ _ _ _ hpre hj) hg) hxm) hlob)

/-- C15 fails on the code: started with `--testmap maps/test --lobby --lobby-address 127.0.0.1
--lobby-port 3030 --uuid client` and all data in place, `main` skips `CMainMenu::create`,
goes through the lobby block up to the write of `server/reconnect`, and then calls
`openLobby` through the empty `mmenu`: the run ends in a crash and the trace holds no
construction of the main menu. -/
theorem main_testmap_lobby_crashes :
    testmapLobbyRun.commandLine.vm.count "testmap" = true ∧
    testmapLobbyRun.commandLine.vm.count "lobby" = true ∧
    (main testmapLobbyRun processStart).isCrashed = true ∧
    (main testmapLobbyRun processStart).world.settings ["session", "lobby"] = .bool true ∧
    (main testmapLobbyRun processStart).world.settings ["server", "reconnect"] = .bool false ∧
    (main testmapLobbyRun processStart).world.trace.count (.startup .mainMenuCreate) = 0 := by
  obtain ⟨s', h, h1, h2, h3⟩ := main_lobby_without_menu testmapLobbyRun processStart
    "127.0.0.1" "client" 3030 (by decide) (by decide) rfl rfl (Or.inl (by decide)) (by decide)
    (by decide) (by decide) (by decide) (by decide)
  rw [h]
  exact ⟨by decide, by decide, rfl, h2, h1, h3⟩

/-! ### The trace is never read -/

theorem after_nil (s : World) : World.after [] s = s := by
  simp [World.after]

theorem after_after (p q : List Effect) (s : World) :
    World.after p (World.after q s) = World.after (p ++ q) s := by
  simp [World.after]

theorem Outcome.after_world (pre : List Effect) (o : Outcome) :
    (o.after pre).world = World.after pre o.world := by
  cases o <;> rfl

theorem Outcome.after_exitCode (pre : List Effect) (o : Outcome) :
    (o.after pre).exitCode = o.exitCode := by
  cases o <;> rfl

theorem emit_after (pre : List Effect) (e : Effect) (s : World) :
    emit e (World.after pre s) = World.after pre (emit e s) := by
  simp [emit, World.after]

theorem setNode_after (pre : List Effect) (p : Path) (v : JsonNode) (s : World) :
    setNode p v (World.after pre s) = World.after pre (setNode p v s) := rfl

theorem notify_after (pre : List Effect) (p : Path) (s : World) :
    notify p (World.after pre s) = World.after pre (notify p s) := by
  simp [notify, World.after]

theorem writeSetting_after (pre : List Effect) (p : Path) (v : JsonNode) (s : World) :
    writeSetting p v (World.after pre s) = World.after pre (writeSetting p v s) := by
  unfold writeSetting
  rw [setNode_after, notify_after]
  show (if s.settings p = v then _ else _) = _
  split <;> rfl

theorem bind_after (pre : List Effect) (o : Outcome) (f : World → Outcome)
    (hf : ∀ s, f (World.after pre s) = (f s).after pre) :
    (o.after pre).bind f = (o.bind f).after pre := by
  cases o with
  | returned s => exact hf s
  | exited c s => rfl
  | crashed s => rfl

theorem headless_after (pre : List Effect) (s : World) :
    headless (World.after pre s) = headless s := rfl

theorem ite_after (pre : List Effect) (c : Prop) [Decidable c] (a b : World) :
    (if c then World.after pre a else World.after pre b) =
      World.after pre (if c then a else b) := by
  split <;> rfl

theorem ite_after_outcome (pre : List Effect) (c : Prop) [Decidable c] (a b : Outcome) :
    (if c then a.after pre else b.after pre) = (if c then a else b).after pre := by
  split <;> rfl

theorem returned_after (pre : List Effect) (s : World) :
    Outcome.returned (World.after pre s) = (Outcome.returned s).after pre := rfl

theorem exited_after (pre : List Effect) (c : Nat) (s : World) :
    Outcome.exited c (World.after pre s) = (Outcome.exited c s).after pre := rfl

theorem crashed_after (pre : List Effect) (s : World) :
    Outcome.crashed (World.after pre s) = (Outcome.crashed s).after pre := rfl

theorem after_CCS (pre : List Effect) (s : World) (c : Option CClientState) :
    ({ World.after pre s with CCS := c } : World) = World.after pre { s with CCS := c } := rfl

theorem after_graphics (pre : List Effect) (s : World) (b : Bool) :
    ({ World.after pre s with graphics := b } : World) =
      World.after pre { s with graphics := b } := rfl

theorem after_VLC (pre : List Effect) (s : World) (b : Bool) :
    ({ World.after pre s with VLC := b } : World) = World.after pre { s with VLC := b } := rfl

theorem after_console (pre : List Effect) (s : World) (b : Bool) :
    ({ World.after pre s with console := b } : World) =
      World.after pre { s with console := b } := rfl

theorem after_logConfig (pre : List Effect) (s : World) (b : Bool) :
    ({ World.after pre s with logConfig := b } : World) =
      World.after pre { s with logConfig := b } := rfl

theorem after_CMM (pre : List Effect) (s : World) (b : Bool) :
    ({ World.after pre s with CMM := b } : World) = World.after pre { s with CMM := b } := rfl

theorem after_defActionsDef (pre : List Effect) (s : World) (n : Nat) :
    ({ World.after pre s with defActionsDef := n } : World) =
      World.after pre { s with defActionsDef := n } := rfl

theorem after_queue (pre : List Effect) (s : World) (q : List SDL_Event) :
    ({ World.after pre s with SDLEventsQueue := q } : World) =
      World.after pre { s with SDLEventsQueue := q } := rfl

theorem after_listeners (pre : List Effect) (s : World) (l : List Path) :
    ({ World.after pre s with listeners := l } : World) =
      World.after pre { s with listeners := l } := rfl

theorem after_read_settings (pre : List Effect) (s : World) :
    (World.after pre s).settings = s.settings := rfl

theorem after_read_listeners (pre : List Effect) (s : World) :
    (World.after pre s).listeners = s.listeners := rfl

theorem after_read_CCS (pre : List Effect) (s : World) :
    (World.after pre s).CCS = s.CCS := rfl

theorem after_read_logConfig (pre : List Effect) (s : World) :
    (World.after pre s).logConfig = s.logConfig := rfl

theorem after_read_queue (pre : List Effect) (s : World) :
    (World.after pre s).SDLEventsQueue = s.SDLEventsQueue := rfl

theorem quitTail_after (pre : List Effect) (s : World) :
    quitTail (World.after pre s) = (quitTail s).after pre := by
  unfold quitTail
  simp only [emit_after, headless_after, after_VLC, after_console, after_logConfig, ite_after,
    exited_after]
  simp only [after_read_logConfig]

theorem releaseClientState_after (pre : List Effect) (s : World) :
    releaseClientState (World.after pre s) = (releaseClientState s).after pre := by
  unfold releaseClientState
  show (match s.CCS with | none => _ | some c => _) = _
  split
  · rfl
  · simp only [emit_after, after_CCS, returned_after, crashed_after, ite_after_outcome]

theorem quitApplication_after (pre : List Effect) (env : Env) (s : World) :
    quitApplication env (World.after pre s) = (quitApplication env s).after pre := by
  unfold quitApplication
  simp only [emit_after, headless_after, after_CMM, ite_after, quitTail_after,
    releaseClientState_after, after_graphics]
  rw [bind_after]
  · simp only [ite_after_outcome]
  · intro s1
    simp only [emit_after, after_graphics, quitTail_after]

theorem quitDialogAccepted_after (pre : List Effect) (env : Env) (s : World) :
    quitDialogAccepted env (World.after pre s) = (quitDialogAccepted env s).after pre := by
  unfold quitDialogAccepted
  simp only [emit_after, quitApplication_after]

theorem handleQuit_after (pre : List Effect) (env : Env) (ask : Bool) (s : World) :
    handleQuit env ask (World.after pre s) = (handleQuit env ask s).after pre := by
  unfold handleQuit
  show (if _ then (match s.CCS with | none => _ | some c => _) else _) = _
  split
  · split
    · rfl
    · simp only [emit_after, returned_after, crashed_after, ite_after_outcome]
  · exact quitApplication_after _ _ _

theorem finisher_after (pre : List Effect) (c : CCampaignState) (s : World) :
    finisher c (World.after pre s) = World.after pre (finisher c s) := by
  unfold finisher
  simp only [emit_after, ite_after]

theorem handleUserEvent_after (pre : List Effect) (env : Env) (ev : SDL_Event) (s : World) :
    handleUserEvent env ev (World.after pre s) = (handleUserEvent env ev s).after pre := by
  unfold handleUserEvent
  split <;>
    simp only [emit_after, returned_after, ite_after_outcome, handleQuit_after,
      after_defActionsDef, finisher_after]

theorem handleWindowEvent_after (pre : List Effect) (ev : SDL_Event) (s : World) :
    handleWindowEvent ev (World.after pre s) = (handleWindowEvent ev s).after pre := by
  unfold handleWindowEvent
  simp only [emit_after, returned_after, ite_after_outcome]

theorem preprocess_after (pre : List Effect) (ev : SDL_Event) (s : World) :
    preprocess ev (World.after pre s) = (preprocess ev s).after pre := by
  unfold preprocess
  show (if _ then (match s.CCS with | none => _ | some c => _) else _) = _
  split
  · split
    · rfl
    · simp only [emit_after, returned_after, crashed_after, ite_after_outcome]
  · rfl

theorem pushEvent_after (pre : List Effect) (ev : SDL_Event) (s : World) :
    pushEvent ev (World.after pre s) = World.after pre (pushEvent ev s) := by
  unfold pushEvent
  simp only [emit_after, after_queue]
  simp only [after_read_queue]

theorem forwardEvent_after (pre : List Effect) (ev : SDL_Event) (s : World) :
    forwardEvent ev (World.after pre s) = (forwardEvent ev s).after pre := by
  unfold forwardEvent
  simp only [emit_after, headless_after, ite_after, after_read_settings, preprocess_after]
  rw [bind_after]
  intro s1
  simp only [pushEvent_after, returned_after]

theorem handleEvent_after (pre : List Effect) (askDefault : Bool) (env : Env) (ev : SDL_Event)
    (s : World) :
    handleEvent askDefault env ev (World.after pre s) =
      (handleEvent askDefault env ev s).after pre := by
  unfold handleEvent
  simp only [handleQuit_after, writeSetting_after, after_read_settings, returned_after,
    handleUserEvent_after, handleWindowEvent_after, forwardEvent_after, ite_after_outcome]

theorem runEvents_after (pre : List Effect) (askDefault : Bool)
    (events : List (Env × SDL_Event)) (s : World) :
    runEvents askDefault events (World.after pre s) =
      (runEvents askDefault events s).after pre := by
  induction events generalizing s with
  | nil => rfl
  | cons x rest ih =>
    rcases x with ⟨env, ev⟩
    simp only [runEvents, handleEvent_after]
    cases handleEvent askDefault env ev s with
    | returned s1 => exact ih s1
    | exited c s1 => rfl
    | crashed s1 => rfl

theorem mainLoopIteration_after (pre : List Effect) (askDefault : Bool)
    (polled : List (Env × SDL_Event)) (s : World) :
    mainLoopIteration askDefault polled (World.after pre s) =
      (mainLoopIteration askDefault polled s).after pre := by
  unfold mainLoopIteration
  rw [runEvents_after, bind_after]
  intro s1
  simp only [emit_after, returned_after]

theorem runFrames_after (pre : List Effect) (askDefault : Bool)
    (frames : List (List (Env × SDL_Event))) (s : World) :
    runFrames askDefault frames (World.after pre s) =
      (runFrames askDefault frames s).after pre := by
  induction frames generalizing s with
  | nil => rfl
  | cons polled rest ih =>
    simp only [runFrames, mainLoopIteration_after]
    cases mainLoopIteration askDefault polled s with
    | returned s1 => exact ih s1
    | exited c s1 => rfl
    | crashed s1 => rfl

theorem mainLoop_after (pre : List Effect) (askDefault : Bool)
    (frames : List (List (Env × SDL_Event))) (s : World) :
    mainLoop askDefault frames (World.after pre s) =
      (mainLoop askDefault frames s).after pre := by
  unfold mainLoop
  simp only [after_listeners, emit_after, runFrames_after]
  simp only [after_read_listeners]

theorem headlessLoop_after (pre : List Effect) (n : Nat) (s : World) :
    headlessLoop n (World.after pre s) = World.after pre (headlessLoop n s) := by
  induction n generalizing s with
  | zero => rfl
  | succ n ih => simp only [headlessLoop, emit_after, ih]

theorem testFile_after (pre : List Effect) (ex : String → Bool) (name message : String)
    (s : World) :
    (testFile ex name message (World.after pre s)).2 =
      World.after pre (testFile ex name message s).2 := by
  unfold testFile
  split
  · rfl
  · exact emit_after _ _ _

theorem createSubsystems_after (pre : List Effect) (vm : VariablesMap) (s : World) :
    createSubsystems vm (World.after pre s) = World.after pre (createSubsystems vm s) := by
  unfold createSubsystems
  simp only [emit_after, headless_after, ite_after, after_CCS]
  simp only [after_read_CCS]

theorem playIntro_after (pre : List Effect) (logoPlayed : Bool) (s : World) :
    playIntro logoPlayed (World.after pre s) = (playIntro logoPlayed s).after pre := by
  unfold playIntro
  show (match s.CCS with | none => _ | some c => _) = _
  split
  · rfl
  · simp only [emit_after, returned_after, crashed_after, ite_after_outcome]

theorem bind_emit_after (pre : List Effect) (o : Outcome) (e : Effect) :
    ((o.after pre).bind fun s => .returned (emit e s)) =
      (o.bind fun s => .returned (emit e s)).after pre := by
  cases o with
  | returned s => exact congrArg Outcome.returned (emit_after pre e s)
  | exited c s => rfl
  | crashed s => rfl

theorem loadAndIntro_after (pre : List Effect) (r : Run) (s : World) :
    loadAndIntro r (World.after pre s) = (loadAndIntro r s).after pre := by
  unfold loadAndIntro
  simp only [emit_after, headless_after, ite_after, after_read_settings, playIntro_after,
    returned_after, ite_after_outcome, bind_emit_after]

theorem createGraphics_after (pre : List Effect) (s : World) :
    createGraphics (World.after pre s) = World.after pre (createGraphics s) := by
  unfold createGraphics
  simp only [emit_after, headless_after, ite_after, after_CCS, after_graphics]
  simp only [after_read_CCS]

theorem createMenu_after (pre : List Effect) (vm : VariablesMap) (s : World) :
    (createMenu vm (World.after pre s)).1 = ((createMenu vm s).1).after pre ∧
      (createMenu vm (World.after pre s)).2 = (createMenu vm s).2 := by
  unfold createMenu
  simp only [setNode_after, emit_after]
  split
  · split <;> exact ⟨rfl, rfl⟩
  · split
    · split <;> exact ⟨rfl, rfl⟩
    · exact ⟨rfl, rfl⟩

theorem lobbyHost_after (pre : List Effect) (vm : VariablesMap) (s : World) :
    lobbyHost vm (World.after pre s) = (lobbyHost vm s).after pre := by
  unfold lobbyHost
  simp only [setNode_after, emit_after]
  split
  · split
    · rfl
    · split <;> rfl
  · rfl

theorem bind_after_of (pre : List Effect) (o o' : Outcome) (f : World → Outcome)
    (ho : o' = o.after pre) (hf : ∀ s, f (World.after pre s) = (f s).after pre) :
    o'.bind f = (o.bind f).after pre := by
  subst ho
  exact bind_after pre o f hf

theorem startLobby_after (pre : List Effect) (vm : VariablesMap) (mmenu : Bool) (s : World) :
    startLobby vm mmenu (World.after pre s) = (startLobby vm mmenu s).after pre := by
  unfold startLobby
  simp only [setNode_after, after_read_settings, returned_after, crashed_after]
  split
  · split
    · rfl
    · refine bind_after_of _ _ _ _ ?_ ?_
      · split
        · split <;> rfl
        · rfl
      · intro s1
        dsimp only
        refine bind_after_of _ _ _ _ ?_ ?_
        · simp only [setNode_after, returned_after, crashed_after]
          split
          · split <;> rfl
          · rfl
        · intro s2
          dsimp only
          split
          · rfl
          · split
            · rfl
            · simp only [setNode_after, emit_after, lobbyHost_after]
              rw [bind_after]
              intro s3
              simp only [setNode_after, emit_after, notify_after, after_read_settings,
                ite_after, returned_after, crashed_after, ite_after_outcome]
  · rfl

theorem runClient_after (pre : List Effect) (r : Run) (s : World) :
    runClient r (World.after pre s) = (runClient r s).after pre := by
  unfold runClient
  simp only [testFile_after, createSubsystems_after, loadAndIntro_after]
  rw [bind_after]
  intro s1
  simp only [createGraphics_after, (createMenu_after _ _ _).1, (createMenu_after _ _ _).2]
  rw [bind_after]
  intro s2
  simp only [startLobby_after]
  rw [bind_after]
  intro s3
  simp only [after_read_settings, headless_after, emit_after, ite_after, mainLoop_after,
    headlessLoop_after, returned_after, ite_after_outcome]

/-! ### The probes of the optional files -/

theorem after_withTrace (p q : List Effect) (o : Outcome) :
    o.after p = (o.after q).withTrace (p ++ o.world.trace) := by
  cases o <;> rfl

theorem probe_state (r : Run) (s : World) :
    (testFile r.existsResource "SOUNDS/G1A.WAV" "campaign music"
      (testFile r.existsResource "VIDEO/GOOD1A.SMK" "campaign movies" s).2).2 =
      { s with trace := s.trace ++ optionalProbeLog r } := by
  cases h1 : r.existsResource "VIDEO/GOOD1A.SMK" <;>
    cases h2 : r.existsResource "SOUNDS/G1A.WAV" <;>
    simp [testFile, optionalProbeLog, emit, h1, h2] <;> rfl

theorem runClient_probe (r : Run) (s : World) :
    runClient r s =
      runClient (withOptionalFiles r) { s with trace := s.trace ++ optionalProbeLog r } := by
  have h := probe_state r s
  unfold runClient
  simp only [h]
  rfl

theorem createSubsystems_trace_head (vm : VariablesMap) (s : World) :
    ∃ tail, (createSubsystems vm s).trace = s.trace ++ .startup .srand :: tail := by
  cases hH : (s.settings ["session", "headless"]).asBool <;>
    simp [createSubsystems, emit, headless, hH]

theorem runClient_trace_head (r : Run) (s : World) :
    ∃ post, (runClient r s).world.trace =
      s.trace ++ optionalProbeLog r ++ .startup .srand :: post := by
  obtain ⟨_, c, hC, hcv⟩ := createSubsystems_ready r s
  obtain ⟨s3, hL, hx3⟩ := loadAndIntro_returns r _ c hC hcv
  have hpost := runClient_after_join r s s3 hL
  rw [extendsBy_iff] at hx3 hpost
  obtain ⟨mid, emid, _⟩ := hx3
  obtain ⟨post, epost, _⟩ := hpost
  obtain ⟨tail, etail⟩ := createSubsystems_trace_head r.commandLine.vm
    (testFile r.existsResource "SOUNDS/G1A.WAV" "campaign music"
      (testFile r.existsResource "VIDEO/GOOD1A.SMK" "campaign movies" s).2).2
  have hp := congrArg World.trace (probe_state r s)
  refine ⟨tail ++ mid ++ .startup .loadingJoin :: post, ?_⟩
  rw [epost]
  show s3.trace ++ [.startup .loadingJoin] ++ post = _
  rw [emid, etail, hp]
  simp

theorem main_probe (r : Run) (s : World)
    (hh : r.commandLine.vm.count "help" = false)
    (hv : r.commandLine.vm.count "version" = false)
    (hA : r.existsResource "DATA/HELP.TXT" = true)
    (hB : r.existsResource "MODS/VCMI/MOD.JSON" = true) :
    ∃ s1, main r s = runClient r s1 ∧
      main (withOptionalFiles r) s = runClient (withOptionalFiles r) s1 := by
  obtain ⟨s1, e1, _⟩ := sessionSettings_returns r.split r.commandLine.vm
    (startLogging
      (match r.commandLine with
        | .failed what =>
          emit (.startup (.cerr ("Failure during parsing command-line options:\n" ++ what)))
            (emit (.cout "Starting... ") (emit (.startup .currentPath) s))
        | _ => emit (.cout "Starting... ") (emit (.startup .currentPath) s)))
  refine ⟨emit (.logInfo "settings = %s") (emit (.startup .logConfigure) s1), ?_, ?_⟩
  · simp [main, hh, hv, e1, Outcome.bind, testFile, hA, hB]
  · have hh2 : (withOptionalFiles r).commandLine.vm.count "help" = false := hh
    have hv2 : (withOptionalFiles r).commandLine.vm.count "version" = false := hv
    have hA2 : (withOptionalFiles r).existsResource "DATA/HELP.TXT" = true := by
      simp [withOptionalFiles, hA]
    have hB2 : (withOptionalFiles r).existsResource "MODS/VCMI/MOD.JSON" = true := by
      simp [withOptionalFiles, hB]
    have e2 : sessionSettings (withOptionalFiles r).split (withOptionalFiles r).commandLine.vm
        (startLogging
          (match (withOptionalFiles r).commandLine with
            | .failed what =>
              emit (.startup (.cerr ("Failure during parsing command-line options:\n" ++ what)))
                (emit (.cout "Starting... ") (emit (.startup .currentPath) s))
            | _ => emit (.cout "Starting... ") (emit (.startup .currentPath) s))) =
        .returned s1 := e1
    simp [main, hh2, hv2, e2, Outcome.bind, testFile, hA2, hB2]

theorem main_optional_files (r : Run) (s : World)
    (hh : r.commandLine.vm.count "help" = false)
    (hv : r.commandLine.vm.count "version" = false)
    (hA : r.existsResource "DATA/HELP.TXT" = true)
    (hB : r.existsResource "MODS/VCMI/MOD.JSON" = true) :
    ∃ pre post,
      (main (withOptionalFiles r) s).world.trace = pre ++ .startup .srand :: post ∧
      main r s = (main (withOptionalFiles r) s).withTrace
        (pre ++ optionalProbeLog r ++ .startup .srand :: post) := by
  obtain ⟨s1, e1, e2⟩ := main_probe r s hh hv hA hB
  obtain ⟨post, hpost⟩ := runClient_trace_head (withOptionalFiles r) { s1 with trace := [] }
  have hnil : optionalProbeLog (withOptionalFiles r) = [] := by
    simp [optionalProbeLog, withOptionalFiles]
  rw [hnil] at hpost
  simp only [List.nil_append] at hpost
  have hs1 : s1 = World.after s1.trace { s1 with trace := [] } := by
    simp [World.after]
  have hs2 : ({ s1 with trace := s1.trace ++ optionalProbeLog r } : World) =
      World.after (s1.trace ++ optionalProbeLog r) { s1 with trace := [] } := by
    simp [World.after]
  have k1 : runClient (withOptionalFiles r) s1 =
      (runClient (withOptionalFiles r) { s1 with trace := [] }).after s1.trace :=
    (congrArg (runClient (withOptionalFiles r)) hs1).trans (runClient_after _ _ _)
  have k2 : runClient (withOptionalFiles r)
        { s1 with trace := s1.trace ++ optionalProbeLog r } =
      (runClient (withOptionalFiles r) { s1 with trace := [] }).after
        (s1.trace ++ optionalProbeLog r) :=
    (congrArg (runClient (withOptionalFiles r)) hs2).trans (runClient_after _ _ _)
  refine ⟨s1.trace, post, ?_, ?_⟩
  · rw [e2, k1, Outcome.after_world]
    show s1.trace ++ _ = _
    rw [hpost]
  · rw [e1, runClient_probe, k2, e2, k1,
      after_withTrace (s1.trace ++ optionalProbeLog r) s1.trace, hpost]

/-! ### C6 -/

/-- C6: when neither help nor version is asked for, `main` ends the process with status 1,
and has created no subsystem by then, when DATA/HELP.TXT or MODS/VCMI/MOD.JSON does not
exist.  When both exist the process never ends with status 1, and the run is the run on the
same installation with VIDEO/GOOD1A.SMK and SOUNDS/G1A.WAV in place: it ends in the same way
and in the same state, but for the trace, which holds, right before the call of `srand` at
line 294, one logged error for each of the two files that does not exist. -/
theorem main_exit_status (r : Run) (s : World)
    (hh : r.commandLine.vm.count "help" = false)
    (hv : r.commandLine.vm.count "version" = false) :
    ((r.existsResource "DATA/HELP.TXT" = false ∨
        r.existsResource "MODS/VCMI/MOD.JSON" = false) →
      ∃ s', main r s = .exited 1 s' ∧ sameCreations s s') ∧
    ((r.existsResource "DATA/HELP.TXT" = true ∧
        r.existsResource "MODS/VCMI/MOD.JSON" = true) →
      (main r s).exitCode ≠ some 1) ∧
    ((r.existsResource "DATA/HELP.TXT" = true ∧
        r.existsResource "MODS/VCMI/MOD.JSON" = true) →
      ∃ pre post,
        (main (withOptionalFiles r) s).world.trace = pre ++ .startup .srand :: post ∧
        main r s = (main (withOptionalFiles r) s).withTrace
          (pre ++ optionalProbeLog r ++ .startup .srand :: post)) := by
  have hp := sameCreations_prologue r s
  obtain ⟨s1, e1, h1⟩ := sessionSettings_returns r.split r.commandLine.vm
    (startLogging
      (match r.commandLine with
        | .failed what =>
          emit (.startup (.cerr ("Failure during parsing command-line options:\n" ++ what)))
            (emit (.cout "Starting... ") (emit (.startup .currentPath) s))
        | _ => emit (.cout "Starting... ") (emit (.startup .currentPath) s)))
  have hs1 : sameCreations s s1 :=
    sameCreations_trans _ _ _ (sameCreations_trans _ _ _ hp (sameCreations_startLogging _)) h1
  have hs2 : sameCreations s
      (emit (.logInfo "settings = %s") (emit (.startup .logConfigure) s1)) :=
    sameCreations_trans _ _ _ (sameCreations_trans _ _ _ hs1
      (sameCreations_emit _ _ (by decide))) (sameCreations_emit _ _ (by decide))
  refine ⟨?_, ?_, ?_⟩
  · intro hmiss
    by_cases hA : r.existsResource "DATA/HELP.TXT" = true
    · have hB : r.existsResource "MODS/VCMI/MOD.JSON" = false := by
        rcases hmiss with h | h
        · rw [hA] at h; cases h
        · exact h
      refine ⟨_, ?_, sameCreations_trans _ _ _ hs2
        (sameCreations_emit (.logError "Error: VCMI data was not found!") _ (by decide))⟩
      simp [main, hh, hv, e1, Outcome.bind, testFile, hA, hB]
    · have hA' : r.existsResource "DATA/HELP.TXT" = false := by simpa using hA
      refine ⟨_, ?_, sameCreations_trans _ _ _ hs2
        (sameCreations_emit (.logError "Error: Heroes III data was not found!") _ (by decide))⟩
      simp [main, hh, hv, e1, Outcome.bind, testFile, hA']
  · rintro ⟨hA, hB⟩
    have hmain : main r s =
        runClient r (emit (.logInfo "settings = %s") (emit (.startup .logConfigure) s1)) := by
      simp [main, hh, hv, e1, Outcome.bind, testFile, hA, hB]
    rw [hmain]
    intro h
    have := runClient_exitsOnlyZero r _ 1 h
    exact absurd this (by decide)
  · rintro ⟨hA, hB⟩
    exact main_optional_files r s hh hv hA hB

/-- Witness of C6: with DATA/HELP.TXT missing the process ends with status 1; with only the
campaign movies missing it does not, and the run differs from the run on a complete
installation by one logged error. -/
theorem main_exit_status_witness :
    (∃ s', main (plainRun fun name => name != "DATA/HELP.TXT") processStart = .exited 1 s' ∧
      sameCreations processStart s') ∧
    (main (plainRun fun name => name != "VIDEO/GOOD1A.SMK") processStart).exitCode ≠ some 1 ∧
    optionalProbeLog (plainRun fun name => name != "VIDEO/GOOD1A.SMK") =
      [.logError "Error: campaign movies was not found!"] ∧
    ∃ pre post,
      (main (withOptionalFiles (plainRun fun name => name != "VIDEO/GOOD1A.SMK"))
        processStart).world.trace = pre ++ .startup .srand :: post ∧
      main (plainRun fun name => name != "VIDEO/GOOD1A.SMK") processStart =
        (main (withOptionalFiles (plainRun fun name => name != "VIDEO/GOOD1A.SMK"))
          processStart).withTrace
          (pre ++ optionalProbeLog (plainRun fun name => name != "VIDEO/GOOD1A.SMK") ++
            .startup .srand :: post) :=
  ⟨(main_exit_status (plainRun fun name => name != "DATA/HELP.TXT") processStart
      (by decide) (by decide)).1 (Or.inl (by decide)),
   (main_exit_status (plainRun fun name => name != "VIDEO/GOOD1A.SMK") processStart
      (by decide) (by decide)).2.1 ⟨by decide, by decide⟩,
   by decide,
   (main_exit_status (plainRun fun name => name != "VIDEO/GOOD1A.SMK") processStart
      (by decide) (by decide)).2.2 ⟨by decide, by decide⟩⟩

end CMT
